import Mathlib

/-!
Shallow embedding of the xiaoliuren divination core
(`backend/ai_agents/xlr/liuren/engine.py`, `.../liuren/utils.py`,
`.../adapters/liuren_adapter.py`, `.../agents/orchestrator.py`,
`.../agents/master_agent.py`) together with proofs of the spec claims.

Python dictionaries are embedded as association lists, Python `None` /
missing keys as `Option`, and functions that raise as `Except`.
-/

namespace XLR

/-! ## Knowledge-base data model (`backend/shared/db/models/knowledge.py`) -/

structure Gong where
  name : String
  position : Nat
  wuxing : String
  meaning : String
  deriving Repr, DecidableEq

structure Shou where
  name : String
  position : Nat
  wuxing : String
  characteristics : String
  meaning : String
  deriving Repr, DecidableEq

structure Qin where
  name : String
  relationship : String
  meaning : String
  deriving Repr, DecidableEq

structure DiZhi where
  name : String
  wuxing : String
  shichen : String
  meaning : String
  deriving Repr, DecidableEq

/-- Embeds `KnowledgeBase` from `liuren/utils.py`: the in-memory lookup container.
The Python dict fields (`gong_mapping`, `dizhi_mapping`, `wuxing_relations`)
are embedded as association lists. -/
structure KnowledgeBase where
  gong_data : List Gong
  shou_data : List Shou
  qin_data : List Qin
  dizhi_data : List DiZhi
  wuxing_relations : List (String × List (String × String))
  deriving Repr, DecidableEq

/-- The dict `gong_mapping` is rebuilt from `gong_data` keyed by position
(`load_gong_data`); later entries overwrite earlier ones in a Python dict
comprehension, which for the unique-position seed data equals first-match
lookup on the list. We embed dict lookup as first-match over the list. -/
def KnowledgeBase.get_gong_by_position (kb : KnowledgeBase) (position : Nat) : Option Gong :=
  kb.gong_data.find? (fun g => g.position = position)

def KnowledgeBase.get_dizhi_by_name (kb : KnowledgeBase) (name : String) : Option DiZhi :=
  kb.dizhi_data.find? (fun d => d.name = name)

/-- Embeds `KnowledgeBase.get_wuxing_relation`: total lookup, returning `"无关"`
both when `element1` has no row and when the row lacks `element2`. -/
def KnowledgeBase.get_wuxing_relation (kb : KnowledgeBase) (element1 element2 : String) : String :=
  match kb.wuxing_relations.find? (fun p => p.1 = element1) with
  | none => "无关"
  | some row =>
    match row.2.find? (fun p => p.1 = element2) with
    | none => "无关"
    | some rel => rel.2

def KnowledgeBase.get_all_shou (kb : KnowledgeBase) : List Shou := kb.shou_data

def KnowledgeBase.get_all_qin (kb : KnowledgeBase) : List Qin := kb.qin_data

/-! ## PaipanEngine constants (`liuren/engine.py`) -/

def YIN_DIZHI : List String := ["丑", "卯", "巳", "未", "酉", "亥"]

def YANG_DIZHI : List String := ["子", "寅", "辰", "午", "申", "戌"]

def LIUSHOU_ORDER : List String := ["青龙", "朱雀", "勾陈", "腾蛇", "白虎", "玄武"]

def LIUSHOU_START_MAP : List (String × String) :=
  [("寅", "青龙"), ("卯", "青龙"),
   ("巳", "朱雀"), ("午", "朱雀"),
   ("丑", "勾陈"), ("辰", "勾陈"),
   ("未", "腾蛇"), ("戌", "腾蛇"),
   ("申", "白虎"), ("酉", "白虎"),
   ("亥", "玄武"), ("子", "玄武")]

/-- Embeds `PaipanEngine.calculate_luogong`: `(num1 + num2 - 1) % 6`, with a `0`
result mapped to `6`.  Inputs are the two reported numbers (1-6). -/
def calculate_luogong (num1 num2 : Nat) : Nat :=
  let result := (num1 + num2 - 1) % 6
  if result ≠ 0 then result else 6

/-- Embeds `PaipanEngine._get_dizhi_sequence`: yin branches keep the yin list,
anything else gets the yang list. -/
def get_dizhi_sequence (current_dizhi : String) : List String :=
  if YIN_DIZHI.contains current_dizhi then YIN_DIZHI else YANG_DIZHI

/-- Embeds `PaipanEngine._rotate_list`: rotate `lst` so that `target_item` sits at
index `target_pos_index`.  Python's `%` on a possibly negative left operand
is `Int.emod`, which is non-negative for a positive modulus, exactly as in
the source. -/
def rotate_list (lst : List String) (target_item : String) (target_pos_index : Nat) : List String :=
  if ¬ lst.contains target_item then lst
  else
    let n := lst.length
    let current_idx := lst.indexOf target_item
    let start_item_idx := (((current_idx : Int) - (target_pos_index : Int)) % (n : Int)).toNat
    (List.range n).map (fun i => lst.getD ((start_item_idx + i) % n) "")

/-- The twelve earthly branches (yang and yin interleaved in canonical order),
the keys of `LIUSHOU_START_MAP` and of the seeded `dizhi_mapping`. -/
def TWELVE_DIZHI : List String :=
  ["子", "丑", "寅", "卯", "辰", "巳", "午", "未", "申", "酉", "戌", "亥"]

/-! ## Chart generation (`PaipanEngine.generate_paipan` and helpers) -/

/-- One `gong_{pos}` record of the six-palace lattice
(`PaipanEngine._generate_liugong_paipan`).  `dizhi_info` is `none` exactly
when the Python code stores the falsy empty dict `{}`. -/
structure GongEntry where
  name : String
  position : Nat
  wuxing : String
  meaning : String
  is_luogong : Bool
  is_ti_gong : Bool
  is_yong_gong : Bool
  dizhi_info : Option DiZhi
  deriving Repr, DecidableEq

/-- The `for i, pos in enumerate(gong_positions)` loop of
`_generate_liugong_paipan`: an entry is added only when the palace lookup
succeeds, keyed by position. -/
def liugong_entries (kb : KnowledgeBase) (rotated_dizhis : List String)
    (luogong : Nat) (ti_gong yong_gong : Nat) : List (Nat × GongEntry) :=
  (List.range 6).filterMap (fun i =>
    let pos := i + 1
    match kb.get_gong_by_position pos with
    | none => none
    | some gong =>
      let dizhi_name := rotated_dizhis.getD i ""
      let dizhi_obj := kb.get_dizhi_by_name dizhi_name
      some (pos,
        { name := gong.name
          position := pos
          wuxing := gong.wuxing
          meaning := gong.meaning
          is_luogong := pos == luogong
          is_ti_gong := pos == ti_gong
          is_yong_gong := pos == yong_gong
          dizhi_info := dizhi_obj }))

/-- Embeds `PaipanEngine._generate_liugong_paipan`: pick the yin/yang six-branch
sequence for the current hour branch, rotate it so the current branch sits at
index `luogong - 1`, and fill the six palace records.  (The extra bookkeeping
keys `shichen_info` / `luogong_position` / `ti_gong_info` / `yong_gong_info`
merely copy the arguments and are not part of the lattice.) -/
def generate_liugong_paipan (kb : KnowledgeBase) (luogong : Nat)
    (current_dizhi_name : String) (ti_gong yong_gong : Nat) : List (Nat × GongEntry) :=
  let dizhi_seq := get_dizhi_sequence current_dizhi_name
  let rotated_dizhis := rotate_list dizhi_seq current_dizhi_name (luogong - 1)
  liugong_entries kb rotated_dizhis luogong ti_gong yong_gong

/-- The `for i in range(6)` loop of `_add_liushou_paipan`: a `shou_{pos}`
record is added only when a beast of that name is in the knowledge base. -/
def liushou_entries (kb : KnowledgeBase) (rotated_shous : List String) :
    List (Nat × Shou) :=
  (List.range 6).filterMap (fun i =>
    let pos := i + 1
    let shou_name := rotated_shous.getD i ""
    match kb.get_all_shou.find? (fun s => s.name = shou_name) with
    | none => none
    | some shou_obj => some (pos, shou_obj))

/-- Embeds `PaipanEngine._add_liushou_paipan`: `none` models the Python early
returns that leave the `liushou` key absent (palace 1 missing, or its
`dizhi_info` falsy).  The start beast is looked up in `LIUSHOU_START_MAP`
by the branch at palace position 1, defaulting to `青龙`. -/
def add_liushou_paipan (kb : KnowledgeBase) (liugong : List (Nat × GongEntry)) :
    Option (List (Nat × Shou)) :=
  match liugong.find? (fun p => p.1 = 1) with
  | none => none
  | some g1 =>
    match g1.2.dizhi_info with
    | none => none
    | some dz =>
      let start_shou_name :=
        match LIUSHOU_START_MAP.find? (fun p => p.1 = dz.name) with
        | none => "青龙"
        | some p => p.2
      let rotated_shous := rotate_list LIUSHOU_ORDER start_shou_name 0
      some (liushou_entries kb rotated_shous)

/-- One `qin_{i}` record of the six-kinship lattice
(`PaipanEngine._add_liuqin_paipan`). -/
structure QinEntry where
  name : String
  gong_position : Nat
  dizhi_wuxing : String
  taiji_wuxing : String
  meaning : String
  relationship : String
  deriving Repr, DecidableEq

/-- Embeds `PaipanEngine._calculate_liuqin_relation`: the taiji point is labelled
`自身`; otherwise the five-element relation is mapped through the fixed
five-way table, with `未知` as the fallback for any other relation string. -/
def calculate_liuqin_relation (kb : KnowledgeBase) (me_wuxing other_wuxing : String)
    (self_flag : Bool) : String :=
  if self_flag then "自身"
  else
    let relation := kb.get_wuxing_relation me_wuxing other_wuxing
    if relation = "生" then "子孙"
    else if relation = "克" then "妻财"
    else if relation = "生我" then "父母"
    else if relation = "克我" then "官鬼"
    else if relation = "同" then "兄弟"
    else "未知"

/-- The record the `_add_liuqin_paipan` loop writes for position `i`
(the loop body, factored out): the relation name comes from
`_calculate_liuqin_relation`, and the `Qin` row lookup may fail, in which
case the descriptive fields default to empty. -/
def liuqin_entry (kb : KnowledgeBase) (taiji_wuxing : String) (i luogong : Nat)
    (dz : DiZhi) : QinEntry :=
  let relation_name := calculate_liuqin_relation kb taiji_wuxing dz.wuxing (i == luogong)
  let qin_obj := kb.get_all_qin.find? (fun q => q.name = relation_name)
  { name := relation_name
    gong_position := i
    dizhi_wuxing := dz.wuxing
    taiji_wuxing := taiji_wuxing
    meaning := (qin_obj.map Qin.meaning).getD ""
    relationship := (qin_obj.map Qin.relationship).getD "" }

/-- Embeds `PaipanEngine._add_liuqin_paipan`: `none` models the early returns
(luogong palace missing or its `dizhi_info` falsy); inside the loop a
position is skipped (`continue`) when its palace or branch info is absent.
A record is written even when no `Qin` row matches the relation name. -/
def add_liuqin_paipan (kb : KnowledgeBase) (liugong : List (Nat × GongEntry))
    (luogong : Nat) : Option (List (Nat × QinEntry)) :=
  match liugong.find? (fun p => p.1 = luogong) with
  | none => none
  | some lg =>
    match lg.2.dizhi_info with
    | none => none
    | some taiji =>
      let taiji_wuxing := taiji.wuxing
      some ((List.range 6).filterMap (fun j =>
        let i := j + 1
        match liugong.find? (fun p => p.1 = i) with
        | none => none
        | some g =>
          match g.2.dizhi_info with
          | none => none
          | some dz => some (i, liuqin_entry kb taiji_wuxing i luogong dz)))

/-- The lattice part of a `PaipanResult.paipan_data` dict: `liushou` /
`liuqin` are `none` when `_add_liushou_paipan` / `_add_liuqin_paipan` left
the key absent. -/
structure PaipanData where
  liugong : List (Nat × GongEntry)
  liushou : Option (List (Nat × Shou))
  liuqin : Option (List (Nat × QinEntry))
  deriving Repr, DecidableEq

/-- Embeds `PaipanEngine.generate_paipan`: `ti_gong := number1`,
`yong_gong := number2`, then the three lattice passes.  `current_dizhi` is
`qigua_info.shichen_info["dizhi"]`, the current hour branch.  The final
`_add_wuxing_analysis` pass only aggregates the elements already present
into a narrative summary and adds no lattice data; it is not modelled. -/
def generate_paipan (kb : KnowledgeBase) (number1 number2 luogong : Nat)
    (current_dizhi : String) : PaipanData :=
  let liugong := generate_liugong_paipan kb luogong current_dizhi number1 number2
  let liushou := add_liushou_paipan kb liugong
  let liuqin := add_liuqin_paipan kb liugong luogong
  { liugong := liugong, liushou := liushou, liuqin := liuqin }

/-- Embeds `LiurenAdapter._run_qigua`: it computes the landing palace with
`calculate_luogong` and feeds it to `generate_paipan`. -/
def run_qigua (kb : KnowledgeBase) (number1 number2 : Nat) (current_dizhi : String) :
    PaipanData :=
  generate_paipan kb number1 number2 (calculate_luogong number1 number2) current_dizhi

/-! ## Knowledge-base completeness hypotheses and chart accessors -/

/-- All six palace positions resolve (the spec's "knowledge base containing
all six palaces"). -/
def KnowledgeBase.hasAllGong (kb : KnowledgeBase) : Prop :=
  ∀ pos ∈ [1, 2, 3, 4, 5, 6], (kb.get_gong_by_position pos).isSome

/-- All twelve earthly branches resolve. -/
def KnowledgeBase.hasAllDizhi (kb : KnowledgeBase) : Prop :=
  ∀ name ∈ TWELVE_DIZHI, (kb.get_dizhi_by_name name).isSome

/-- All six guardian beasts are present by name. -/
def KnowledgeBase.hasAllShou (kb : KnowledgeBase) : Prop :=
  ∀ name ∈ LIUSHOU_ORDER, (kb.get_all_shou.find? (fun s => s.name = name)).isSome

instance (kb : KnowledgeBase) : Decidable kb.hasAllGong := by
  unfold KnowledgeBase.hasAllGong; infer_instance

instance (kb : KnowledgeBase) : Decidable kb.hasAllDizhi := by
  unfold KnowledgeBase.hasAllDizhi; infer_instance

instance (kb : KnowledgeBase) : Decidable kb.hasAllShou := by
  unfold KnowledgeBase.hasAllShou; infer_instance

/-- The earthly-branch name assigned to palace `pos` of a chart. -/
def branchAt (chart : PaipanData) (pos : Nat) : Option String :=
  ((chart.liugong.find? (fun p => p.1 = pos)).bind (fun p => p.2.dizhi_info)).map DiZhi.name

/-- The beast name assigned to palace `pos` of a chart. -/
def beastAt (chart : PaipanData) (pos : Nat) : Option String :=
  (chart.liushou.bind (fun l => l.find? (fun p => p.1 = pos))).map (fun p => p.2.name)

/-- The kinship label assigned to palace `pos` of a chart. -/
def qinLabelAt (chart : PaipanData) (pos : Nat) : Option String :=
  (chart.liuqin.bind (fun l => l.find? (fun p => p.1 = pos))).map (fun p => p.2.name)

/-- The beast the static start table assigns to a branch name. -/
def startBeastFor (branch : String) : Option String :=
  (LIUSHOU_START_MAP.find? (fun p => p.1 = branch)).map Prod.snd

/-! ## Structural lemmas about the lattice builders -/

theorem liugong_entries_find (kb : KnowledgeBase) (rot : List String)
    (luo ti yong pos : Nat) (hG : kb.hasAllGong) (h1 : 1 ≤ pos) (h6 : pos ≤ 6) :
    ∃ e : GongEntry,
      (liugong_entries kb rot luo ti yong).find? (fun p => p.1 = pos) = some (pos, e) ∧
      e.dizhi_info = kb.get_dizhi_by_name (rot.getD (pos - 1) "") := by
  obtain ⟨g1, hg1⟩ : ∃ g, kb.get_gong_by_position 1 = some g :=
    Option.isSome_iff_exists.mp (hG 1 (by decide))
  obtain ⟨g2, hg2⟩ : ∃ g, kb.get_gong_by_position 2 = some g :=
    Option.isSome_iff_exists.mp (hG 2 (by decide))
  obtain ⟨g3, hg3⟩ : ∃ g, kb.get_gong_by_position 3 = some g :=
    Option.isSome_iff_exists.mp (hG 3 (by decide))
  obtain ⟨g4, hg4⟩ : ∃ g, kb.get_gong_by_position 4 = some g :=
    Option.isSome_iff_exists.mp (hG 4 (by decide))
  obtain ⟨g5, hg5⟩ : ∃ g, kb.get_gong_by_position 5 = some g :=
    Option.isSome_iff_exists.mp (hG 5 (by decide))
  obtain ⟨g6, hg6⟩ : ∃ g, kb.get_gong_by_position 6 = some g :=
    Option.isSome_iff_exists.mp (hG 6 (by decide))
  have hr : List.range 6 = [0, 1, 2, 3, 4, 5] := rfl
  have hlist : liugong_entries kb rot luo ti yong =
      [(1, ⟨g1.name, 1, g1.wuxing, g1.meaning, 1 == luo, 1 == ti, 1 == yong,
        kb.get_dizhi_by_name (rot.getD 0 "")⟩),
       (2, ⟨g2.name, 2, g2.wuxing, g2.meaning, 2 == luo, 2 == ti, 2 == yong,
        kb.get_dizhi_by_name (rot.getD 1 "")⟩),
       (3, ⟨g3.name, 3, g3.wuxing, g3.meaning, 3 == luo, 3 == ti, 3 == yong,
        kb.get_dizhi_by_name (rot.getD 2 "")⟩),
       (4, ⟨g4.name, 4, g4.wuxing, g4.meaning, 4 == luo, 4 == ti, 4 == yong,
        kb.get_dizhi_by_name (rot.getD 3 "")⟩),
       (5, ⟨g5.name, 5, g5.wuxing, g5.meaning, 5 == luo, 5 == ti, 5 == yong,
        kb.get_dizhi_by_name (rot.getD 4 "")⟩),
       (6, ⟨g6.name, 6, g6.wuxing, g6.meaning, 6 == luo, 6 == ti, 6 == yong,
        kb.get_dizhi_by_name (rot.getD 5 "")⟩)] := by
    simp [liugong_entries, hr, List.filterMap, hg1, hg2, hg3, hg4, hg5, hg6]
  rw [hlist]
  interval_cases pos <;>
    exact ⟨_, rfl, rfl⟩

theorem liushou_entries_find (kb : KnowledgeBase) (rot : List String) (pos : Nat)
    (hS : kb.hasAllShou) (h1 : 1 ≤ pos) (h6 : pos ≤ 6)
    (hmem : ∀ i, i < 6 → rot.getD i "" ∈ LIUSHOU_ORDER) :
    ∃ s : Shou,
      (liushou_entries kb rot).find? (fun p => p.1 = pos) = some (pos, s) ∧
      s.name = rot.getD (pos - 1) "" := by
  have key : ∀ i : Nat, i < 6 →
      ∃ s : Shou, kb.get_all_shou.find? (fun s => s.name = rot.getD i "") = some s ∧
        s.name = rot.getD i "" := by
    intro i hi
    obtain ⟨s, hs⟩ : ∃ s, kb.get_all_shou.find? (fun s => s.name = rot.getD i "") = some s :=
      Option.isSome_iff_exists.mp (hS _ (hmem i hi))
    refine ⟨s, hs, ?_⟩
    have := List.find?_some hs
    simpa using this
  obtain ⟨s0, hs0, hn0⟩ := key 0 (by omega)
  obtain ⟨s1, hs1, hn1⟩ := key 1 (by omega)
  obtain ⟨s2, hs2, hn2⟩ := key 2 (by omega)
  obtain ⟨s3, hs3, hn3⟩ := key 3 (by omega)
  obtain ⟨s4, hs4, hn4⟩ := key 4 (by omega)
  obtain ⟨s5, hs5, hn5⟩ := key 5 (by omega)
  have hr : List.range 6 = [0, 1, 2, 3, 4, 5] := rfl
  have hlist : liushou_entries kb rot =
      [(1, s0), (2, s1), (3, s2), (4, s3), (5, s4), (6, s5)] := by
    simp only [liushou_entries, hr, List.filterMap_cons, List.filterMap_nil,
      hs0, hs1, hs2, hs3, hs4, hs5]
  rw [hlist]
  interval_cases pos
  · exact ⟨s0, rfl, hn0⟩
  · exact ⟨s1, rfl, hn1⟩
  · exact ⟨s2, rfl, hn2⟩
  · exact ⟨s3, rfl, hn3⟩
  · exact ⟨s4, rfl, hn4⟩
  · exact ⟨s5, rfl, hn5⟩

/-- The local variable `rotated_dizhis` of `_generate_liugong_paipan`. -/
def rotated_dizhis (luogong : Nat) (current_dizhi : String) : List String :=
  rotate_list (get_dizhi_sequence current_dizhi) current_dizhi (luogong - 1)

theorem generate_liugong_paipan_eq (kb : KnowledgeBase) (luo : Nat) (cur : String)
    (ti yong : Nat) :
    generate_liugong_paipan kb luo cur ti yong =
      liugong_entries kb (rotated_dizhis luo cur) luo ti yong := rfl

/-- Exhaustive facts about the branch rotation, checked over all 72
`(current branch, luogong)` combinations: the current branch lands at index
`luogong - 1`, the rotated list is a cyclic rotation of the chosen yin/yang
sequence, and every rotated slot holds one of the twelve branches. -/
theorem rotate_dizhi_facts : ∀ cur ∈ TWELVE_DIZHI, ∀ luo ∈ [1, 2, 3, 4, 5, 6],
    (rotated_dizhis luo cur).getD (luo - 1) "" = cur ∧
    (∃ k : Fin 6, rotated_dizhis luo cur = (get_dizhi_sequence cur).rotate k.val) ∧
    (∀ i ∈ [0, 1, 2, 3, 4, 5], (rotated_dizhis luo cur).getD i "" ∈ TWELVE_DIZHI) := by
  decide

/-- Exhaustive facts about the beast rotation, checked over the twelve
possible branches at palace position 1: the start table always hits, the
start beast lands at index 0, the rotated list is a cyclic rotation of
`LIUSHOU_ORDER`, and every slot holds a canonical beast name. -/
theorem rotate_shou_facts : ∀ b ∈ TWELVE_DIZHI,
    ∃ sb, startBeastFor b = some sb ∧
      (rotate_list LIUSHOU_ORDER sb 0).getD 0 "" = sb ∧
      (∃ k : Fin 6, rotate_list LIUSHOU_ORDER sb 0 = LIUSHOU_ORDER.rotate k.val) ∧
      (∀ i ∈ [0, 1, 2, 3, 4, 5], (rotate_list LIUSHOU_ORDER sb 0).getD i "" ∈ LIUSHOU_ORDER) := by
  decide

/-- Under a complete knowledge base, the branch assigned to palace `pos` of
a generated chart is slot `pos - 1` of the rotated branch sequence. -/
theorem branchAt_generate (kb : KnowledgeBase) (n1 n2 luo : Nat) (cur : String)
    (pos : Nat) (hG : kb.hasAllGong) (hD : kb.hasAllDizhi)
    (h1 : 1 ≤ pos) (h6 : pos ≤ 6)
    (hmem : (rotated_dizhis luo cur).getD (pos - 1) "" ∈ TWELVE_DIZHI) :
    branchAt (generate_paipan kb n1 n2 luo cur) pos =
      some ((rotated_dizhis luo cur).getD (pos - 1) "") := by
  obtain ⟨e, hfind, hdz⟩ :=
    liugong_entries_find kb (rotated_dizhis luo cur) luo n1 n2 pos hG h1 h6
  obtain ⟨dz, hdzsome⟩ :
      ∃ dz, kb.get_dizhi_by_name ((rotated_dizhis luo cur).getD (pos - 1) "") = some dz :=
    Option.isSome_iff_exists.mp (hD _ hmem)
  have hname : dz.name = (rotated_dizhis luo cur).getD (pos - 1) "" := by
    simpa using List.find?_some hdzsome
  have hchart : (generate_paipan kb n1 n2 luo cur).liugong =
      liugong_entries kb (rotated_dizhis luo cur) luo n1 n2 := rfl
  have hred : ((some (pos, e)).bind (fun p => p.2.dizhi_info)).map DiZhi.name =
      (e.dizhi_info).map DiZhi.name := rfl
  rw [branchAt, hchart, hfind, hred, hdz, hdzsome]
  exact congrArg some hname

/-! ## Claim theorems for the symbolic engine -/

/-- C1: for numbers in [1,6], `calculate_luogong` equals
`(number1 + number2 - 1) mod 6` mapped to 6 when the remainder is 0, always
lies in [1,6], and is commutative. -/
theorem c1_calculate_luogong_spec (n1 n2 : Nat)
    (h11 : 1 ≤ n1) (h16 : n1 ≤ 6) (h21 : 1 ≤ n2) (h26 : n2 ≤ 6) :
    calculate_luogong n1 n2 =
      (if (n1 + n2 - 1) % 6 = 0 then 6 else (n1 + n2 - 1) % 6) ∧
    1 ≤ calculate_luogong n1 n2 ∧ calculate_luogong n1 n2 ≤ 6 ∧
    calculate_luogong n1 n2 = calculate_luogong n2 n1 := by
  interval_cases n1 <;> interval_cases n2 <;> decide

/-- Witness for C1 at the spec's end-to-end example `(3, 5)`. -/
theorem c1_calculate_luogong_spec_witness :
    (1 ≤ 3 ∧ 3 ≤ 6 ∧ 1 ≤ 5 ∧ 5 ≤ 6) ∧
    (calculate_luogong 3 5 =
        (if (3 + 5 - 1) % 6 = 0 then 6 else (3 + 5 - 1) % 6) ∧
      1 ≤ calculate_luogong 3 5 ∧ calculate_luogong 3 5 ≤ 6 ∧
      calculate_luogong 3 5 = calculate_luogong 5 3) :=
  ⟨by decide, c1_calculate_luogong_spec 3 5 (by decide) (by decide) (by decide) (by decide)⟩

/-- C4: for every luogong in [1,6] and every current hour branch, the
branches assigned to palace positions 1..6 are the rotated yin/yang
six-branch subset (a cyclic rotation, yin subset for a yin hour branch and
yang subset otherwise), with the current hour branch landing exactly at the
luogong position. -/
theorem c4_liugong_branch_rotation (kb : KnowledgeBase) (n1 n2 luo : Nat) (cur : String)
    (hG : kb.hasAllGong) (hD : kb.hasAllDizhi)
    (h1 : 1 ≤ luo) (h6 : luo ≤ 6) (hcur : cur ∈ TWELVE_DIZHI) :
    (∀ i, i < 6 → branchAt (generate_paipan kb n1 n2 luo cur) (i + 1) =
      some ((rotated_dizhis luo cur).getD i "")) ∧
    (∃ k : Fin 6, rotated_dizhis luo cur = (get_dizhi_sequence cur).rotate k.val) ∧
    branchAt (generate_paipan kb n1 n2 luo cur) luo = some cur ∧
    (YIN_DIZHI.contains cur = true → get_dizhi_sequence cur = YIN_DIZHI) ∧
    (YIN_DIZHI.contains cur = false → get_dizhi_sequence cur = YANG_DIZHI) := by
  have hluo : luo ∈ [1, 2, 3, 4, 5, 6] := by interval_cases luo <;> decide
  obtain ⟨hland, hrot, hslots⟩ := rotate_dizhi_facts cur hcur luo hluo
  refine ⟨?_, hrot, ?_, ?_, ?_⟩
  · intro i hi
    have himem : (rotated_dizhis luo cur).getD i "" ∈ TWELVE_DIZHI := by
      have hmem6 : i ∈ [0, 1, 2, 3, 4, 5] := by interval_cases i <;> decide
      exact hslots i hmem6
    have := branchAt_generate kb n1 n2 luo cur (i + 1) hG hD (by omega) (by omega)
      (by simpa using himem)
    simpa using this
  · have himem : (rotated_dizhis luo cur).getD (luo - 1) "" ∈ TWELVE_DIZHI := by
      rw [hland]; exact hcur
    have := branchAt_generate kb n1 n2 luo cur luo hG hD h1 h6 himem
    rw [this, hland]
  · intro h
    have hmem : cur ∈ YIN_DIZHI := by simpa using h
    simp [get_dizhi_sequence, hmem]
  · intro h
    have hmem : cur ∉ YIN_DIZHI := by simpa using h
    simp [get_dizhi_sequence, hmem]

/-! ## Concrete knowledge base for witnesses (seeded as in
`scripts/init_database.py` and
`services/knowledge_service.py._get_default_wuxing_relations`; descriptive
texts are irrelevant to the lattices and left empty) -/

/-- Embeds `KnowledgeService._get_default_wuxing_relations`. -/
def default_wuxing_relations : List (String × List (String × String)) :=
  [("金", [("木", "克"), ("水", "生"), ("火", "克我"), ("土", "生我"), ("金", "同")]),
   ("木", [("火", "生"), ("土", "克"), ("金", "克我"), ("水", "生我"), ("木", "同")]),
   ("水", [("木", "生"), ("火", "克"), ("土", "克我"), ("金", "生我"), ("水", "同")]),
   ("火", [("土", "生"), ("金", "克"), ("水", "克我"), ("木", "生我"), ("火", "同")]),
   ("土", [("金", "生"), ("水", "克"), ("木", "克我"), ("火", "生我"), ("土", "同")])]

def testKB : KnowledgeBase :=
  { gong_data :=
      [⟨"大安", 1, "木", ""⟩, ⟨"留连", 2, "火", ""⟩, ⟨"速喜", 3, "火", ""⟩,
       ⟨"赤口", 4, "金", ""⟩, ⟨"小吉", 5, "水", ""⟩, ⟨"空亡", 6, "土", ""⟩]
    shou_data :=
      [⟨"青龙", 1, "木", "", ""⟩, ⟨"朱雀", 2, "火", "", ""⟩, ⟨"勾陈", 3, "土", "", ""⟩,
       ⟨"腾蛇", 4, "火", "", ""⟩, ⟨"白虎", 5, "金", "", ""⟩, ⟨"玄武", 6, "水", "", ""⟩]
    qin_data :=
      [⟨"父母", "长辈权威", ""⟩, ⟨"兄弟", "同辈伙伴", ""⟩, ⟨"官鬼", "职责压力", ""⟩,
       ⟨"妻财", "财富伴侣", ""⟩, ⟨"子孙", "成果晚辈", ""⟩]
    dizhi_data :=
      [⟨"子", "水", "", ""⟩, ⟨"丑", "土", "", ""⟩, ⟨"寅", "木", "", ""⟩, ⟨"卯", "木", "", ""⟩,
       ⟨"辰", "土", "", ""⟩, ⟨"巳", "火", "", ""⟩, ⟨"午", "火", "", ""⟩, ⟨"未", "土", "", ""⟩,
       ⟨"申", "金", "", ""⟩, ⟨"酉", "金", "", ""⟩, ⟨"戌", "土", "", ""⟩, ⟨"亥", "水", "", ""⟩]
    wuxing_relations := default_wuxing_relations }

/-- Witness for C4 at the spec's end-to-end example: numbers (3,5), hour 10
(branch 巳), luogong 1. -/
theorem c4_liugong_branch_rotation_witness :
    (testKB.hasAllGong ∧ testKB.hasAllDizhi ∧ 1 ≤ 1 ∧ 1 ≤ 6 ∧ "巳" ∈ TWELVE_DIZHI) ∧
    ((∀ i, i < 6 → branchAt (generate_paipan testKB 3 5 1 "巳") (i + 1) =
        some ((rotated_dizhis 1 "巳").getD i "")) ∧
      (∃ k : Fin 6, rotated_dizhis 1 "巳" = (get_dizhi_sequence "巳").rotate k.val) ∧
      branchAt (generate_paipan testKB 3 5 1 "巳") 1 = some "巳" ∧
      (YIN_DIZHI.contains "巳" = true → get_dizhi_sequence "巳" = YIN_DIZHI) ∧
      (YIN_DIZHI.contains "巳" = false → get_dizhi_sequence "巳" = YANG_DIZHI)) :=
  ⟨⟨by decide, by decide, by decide, by decide, by decide⟩,
    c4_liugong_branch_rotation testKB 3 5 1 "巳" (by decide) (by decide)
      (by decide) (by decide) (by decide)⟩

/-- C3: the six-beast lattice of a generated chart is a cyclic rotation of
the canonical beast order, and the beast at position 1 is the one the static
start table assigns to the branch sitting at palace position 1. -/
theorem c3_liushou_rotation (kb : KnowledgeBase) (n1 n2 luo : Nat) (cur : String)
    (hG : kb.hasAllGong) (hD : kb.hasAllDizhi) (hS : kb.hasAllShou)
    (h1 : 1 ≤ luo) (h6 : luo ≤ 6) (hcur : cur ∈ TWELVE_DIZHI) :
    ∃ b1, branchAt (generate_paipan kb n1 n2 luo cur) 1 = some b1 ∧
      ∃ start, startBeastFor b1 = some start ∧
        beastAt (generate_paipan kb n1 n2 luo cur) 1 = some start ∧
        ∃ k : Fin 6, ∀ i, i < 6 →
          beastAt (generate_paipan kb n1 n2 luo cur) (i + 1) =
            some ((LIUSHOU_ORDER.rotate k.val).getD i "") := by
  have hluo : luo ∈ [1, 2, 3, 4, 5, 6] := by interval_cases luo <;> decide
  obtain ⟨hland, hrotd, hslots⟩ := rotate_dizhi_facts cur hcur luo hluo
  set rot := rotated_dizhis luo cur with hrotdef
  -- the branch at palace 1
  have hb1mem : rot.getD 0 "" ∈ TWELVE_DIZHI := hslots 0 (by decide)
  have hb1 : branchAt (generate_paipan kb n1 n2 luo cur) 1 = some (rot.getD 0 "") :=
    branchAt_generate kb n1 n2 luo cur 1 hG hD (by omega) (by omega) hb1mem
  obtain ⟨sb, hsb, hland0, ⟨k, hk⟩, hshouslots⟩ := rotate_shou_facts (rot.getD 0 "") hb1mem
  -- unfold `_add_liushou_paipan` on the generated palace lattice
  obtain ⟨e1, hfind1, hdz1⟩ := liugong_entries_find kb rot luo n1 n2 1 hG (by omega) (by omega)
  obtain ⟨dz1, hdz1some⟩ : ∃ dz, kb.get_dizhi_by_name (rot.getD 0 "") = some dz :=
    Option.isSome_iff_exists.mp (hD _ hb1mem)
  have hdz1name : dz1.name = rot.getD 0 "" := by simpa using List.find?_some hdz1some
  obtain ⟨pr, hpr, hpr2⟩ : ∃ pr, LIUSHOU_START_MAP.find? (fun p => p.1 = rot.getD 0 "") = some pr ∧
      pr.2 = sb := by
    rcases Option.map_eq_some'.mp hsb with ⟨pr, hpr, hpr2⟩
    exact ⟨pr, hpr, hpr2⟩
  have hchart : (generate_paipan kb n1 n2 luo cur).liushou =
      add_liushou_paipan kb (liugong_entries kb rot luo n1 n2) := rfl
  have hshou : (generate_paipan kb n1 n2 luo cur).liushou =
      some (liushou_entries kb (rotate_list LIUSHOU_ORDER sb 0)) := by
    have hinfo : e1.dizhi_info = some dz1 := by rw [hdz1]; simpa using hdz1some
    rw [hchart]
    unfold add_liushou_paipan
    simp only [hfind1, hinfo, hdz1name, hpr, hpr2]
  have hmemS : ∀ i, i < 6 → (rotate_list LIUSHOU_ORDER sb 0).getD i "" ∈ LIUSHOU_ORDER := by
    intro i hi
    have hmem6 : i ∈ [0, 1, 2, 3, 4, 5] := by interval_cases i <;> decide
    exact hshouslots i hmem6
  have hbeast : ∀ i, i < 6 → beastAt (generate_paipan kb n1 n2 luo cur) (i + 1) =
      some ((rotate_list LIUSHOU_ORDER sb 0).getD i "") := by
    intro i hi
    obtain ⟨s, hsfind, hsname⟩ := liushou_entries_find kb (rotate_list LIUSHOU_ORDER sb 0)
      (i + 1) hS (by omega) (by omega) hmemS
    have hname : s.name = (rotate_list LIUSHOU_ORDER sb 0).getD i "" := by simpa using hsname
    have hred : ((some (liushou_entries kb (rotate_list LIUSHOU_ORDER sb 0))).bind
        (fun l => l.find? (fun p => p.1 = i + 1))).map (fun p => p.2.name) =
        ((liushou_entries kb (rotate_list LIUSHOU_ORDER sb 0)).find?
          (fun p => p.1 = i + 1)).map (fun p => p.2.name) := rfl
    rw [beastAt, hshou, hred, hsfind]
    exact congrArg some hname
  refine ⟨rot.getD 0 "", hb1, sb, hsb, ?_, ⟨k, ?_⟩⟩
  · rw [hbeast 0 (by omega), hland0]
  · intro i hi
    rw [hbeast i hi, hk]

/-- Witness for C3 at the spec's end-to-end example. -/
theorem c3_liushou_rotation_witness :
    (testKB.hasAllGong ∧ testKB.hasAllDizhi ∧ testKB.hasAllShou ∧
      1 ≤ 1 ∧ 1 ≤ 6 ∧ "巳" ∈ TWELVE_DIZHI) ∧
    (∃ b1, branchAt (generate_paipan testKB 3 5 1 "巳") 1 = some b1 ∧
      ∃ start, startBeastFor b1 = some start ∧
        beastAt (generate_paipan testKB 3 5 1 "巳") 1 = some start ∧
        ∃ k : Fin 6, ∀ i, i < 6 →
          beastAt (generate_paipan testKB 3 5 1 "巳") (i + 1) =
            some ((LIUSHOU_ORDER.rotate k.val).getD i "")) :=
  ⟨⟨by decide, by decide, by decide, by decide, by decide, by decide⟩,
    c3_liushou_rotation testKB 3 5 1 "巳" (by decide) (by decide) (by decide)
      (by decide) (by decide) (by decide)⟩

/-! ## Kinship relation lemmas -/

theorem calculate_liuqin_relation_self (kb : KnowledgeBase) (a b : String) :
    calculate_liuqin_relation kb a b true = "自身" := rfl

theorem calculate_liuqin_relation_ne_self (kb : KnowledgeBase) (a b : String) :
    calculate_liuqin_relation kb a b false ≠ "自身" := by
  unfold calculate_liuqin_relation
  simp only [Bool.false_eq_true, if_false]
  split_ifs <;> decide

theorem calculate_liuqin_relation_cases (kb : KnowledgeBase) (a b : String) :
    (kb.get_wuxing_relation a b = "生" → calculate_liuqin_relation kb a b false = "子孙") ∧
    (kb.get_wuxing_relation a b = "克" → calculate_liuqin_relation kb a b false = "妻财") ∧
    (kb.get_wuxing_relation a b = "生我" → calculate_liuqin_relation kb a b false = "父母") ∧
    (kb.get_wuxing_relation a b = "克我" → calculate_liuqin_relation kb a b false = "官鬼") ∧
    (kb.get_wuxing_relation a b = "同" → calculate_liuqin_relation kb a b false = "兄弟") := by
  refine ⟨?_, ?_, ?_, ?_, ?_⟩ <;> intro h <;> simp [calculate_liuqin_relation, h]

/-- C2: in every generated chart over a knowledge base with all six palaces
and all twelve branches, the kinship entry at the luogong position is
labelled `自身`, exactly one of the six entries carries that label, the
taiji element is the element of the branch at the luogong position, and
every other entry's label is the five-way mapping of
`relation(taijiElement, positionElement)`:
生→子孙, 克→妻财, 生我→父母, 克我→官鬼, 同→兄弟. -/
theorem c2_liuqin_self_invariant (kb : KnowledgeBase) (n1 n2 luo : Nat) (cur : String)
    (hG : kb.hasAllGong) (hD : kb.hasAllDizhi)
    (h1 : 1 ≤ luo) (h6 : luo ≤ 6) (hcur : cur ∈ TWELVE_DIZHI) :
    ∃ qins, (generate_paipan kb n1 n2 luo cur).liuqin = some qins ∧
      qinLabelAt (generate_paipan kb n1 n2 luo cur) luo = some "自身" ∧
      qins.countP (fun p => p.2.name = "自身") = 1 ∧
      qins.map Prod.fst = [1, 2, 3, 4, 5, 6] ∧
      (∃ tdz, kb.get_dizhi_by_name cur = some tdz ∧
        ∀ p ∈ qins, p.2.taiji_wuxing = tdz.wuxing) ∧
      (∀ p ∈ qins, p.1 ≠ luo →
        (kb.get_wuxing_relation p.2.taiji_wuxing p.2.dizhi_wuxing = "生" →
          p.2.name = "子孙") ∧
        (kb.get_wuxing_relation p.2.taiji_wuxing p.2.dizhi_wuxing = "克" →
          p.2.name = "妻财") ∧
        (kb.get_wuxing_relation p.2.taiji_wuxing p.2.dizhi_wuxing = "生我" →
          p.2.name = "父母") ∧
        (kb.get_wuxing_relation p.2.taiji_wuxing p.2.dizhi_wuxing = "克我" →
          p.2.name = "官鬼") ∧
        (kb.get_wuxing_relation p.2.taiji_wuxing p.2.dizhi_wuxing = "同" →
          p.2.name = "兄弟")) := by
  have hluo : luo ∈ [1, 2, 3, 4, 5, 6] := by interval_cases luo <;> decide
  obtain ⟨hland, hrotd, hslots⟩ := rotate_dizhi_facts cur hcur luo hluo
  set rot := rotated_dizhis luo cur with hrotdef
  -- palace and branch data for all six positions
  obtain ⟨e1, hfind1, hdzeq1⟩ := liugong_entries_find kb rot luo n1 n2 1 hG (by omega) (by omega)
  obtain ⟨e2, hfind2, hdzeq2⟩ := liugong_entries_find kb rot luo n1 n2 2 hG (by omega) (by omega)
  obtain ⟨e3, hfind3, hdzeq3⟩ := liugong_entries_find kb rot luo n1 n2 3 hG (by omega) (by omega)
  obtain ⟨e4, hfind4, hdzeq4⟩ := liugong_entries_find kb rot luo n1 n2 4 hG (by omega) (by omega)
  obtain ⟨e5, hfind5, hdzeq5⟩ := liugong_entries_find kb rot luo n1 n2 5 hG (by omega) (by omega)
  obtain ⟨e6, hfind6, hdzeq6⟩ := liugong_entries_find kb rot luo n1 n2 6 hG (by omega) (by omega)
  obtain ⟨dz1, hdzsome1⟩ : ∃ dz, kb.get_dizhi_by_name (rot.getD 0 "") = some dz :=
    Option.isSome_iff_exists.mp (hD _ (hslots 0 (by decide)))
  obtain ⟨dz2, hdzsome2⟩ : ∃ dz, kb.get_dizhi_by_name (rot.getD 1 "") = some dz :=
    Option.isSome_iff_exists.mp (hD _ (hslots 1 (by decide)))
  obtain ⟨dz3, hdzsome3⟩ : ∃ dz, kb.get_dizhi_by_name (rot.getD 2 "") = some dz :=
    Option.isSome_iff_exists.mp (hD _ (hslots 2 (by decide)))
  obtain ⟨dz4, hdzsome4⟩ : ∃ dz, kb.get_dizhi_by_name (rot.getD 3 "") = some dz :=
    Option.isSome_iff_exists.mp (hD _ (hslots 3 (by decide)))
  obtain ⟨dz5, hdzsome5⟩ : ∃ dz, kb.get_dizhi_by_name (rot.getD 4 "") = some dz :=
    Option.isSome_iff_exists.mp (hD _ (hslots 4 (by decide)))
  obtain ⟨dz6, hdzsome6⟩ : ∃ dz, kb.get_dizhi_by_name (rot.getD 5 "") = some dz :=
    Option.isSome_iff_exists.mp (hD _ (hslots 5 (by decide)))
  have hinfo1 : e1.dizhi_info = some dz1 := by rw [hdzeq1]; simpa using hdzsome1
  have hinfo2 : e2.dizhi_info = some dz2 := by rw [hdzeq2]; simpa using hdzsome2
  have hinfo3 : e3.dizhi_info = some dz3 := by rw [hdzeq3]; simpa using hdzsome3
  have hinfo4 : e4.dizhi_info = some dz4 := by rw [hdzeq4]; simpa using hdzsome4
  have hinfo5 : e5.dizhi_info = some dz5 := by rw [hdzeq5]; simpa using hdzsome5
  have hinfo6 : e6.dizhi_info = some dz6 := by rw [hdzeq6]; simpa using hdzsome6
  -- the taiji branch is the branch at the luogong position
  obtain ⟨eL, hfindL, hdzeqL⟩ := liugong_entries_find kb rot luo n1 n2 luo hG h1 h6
  obtain ⟨dzL, hdzsomeL⟩ : ∃ dz, kb.get_dizhi_by_name (rot.getD (luo - 1) "") = some dz := by
    refine Option.isSome_iff_exists.mp (hD _ ?_)
    rw [hland]; exact hcur
  have hinfoL : eL.dizhi_info = some dzL := by rw [hdzeqL]; simpa using hdzsomeL
  have hr : List.range 6 = [0, 1, 2, 3, 4, 5] := rfl
  have hqins : (generate_paipan kb n1 n2 luo cur).liuqin =
      some [(1, liuqin_entry kb dzL.wuxing 1 luo dz1),
            (2, liuqin_entry kb dzL.wuxing 2 luo dz2),
            (3, liuqin_entry kb dzL.wuxing 3 luo dz3),
            (4, liuqin_entry kb dzL.wuxing 4 luo dz4),
            (5, liuqin_entry kb dzL.wuxing 5 luo dz5),
            (6, liuqin_entry kb dzL.wuxing 6 luo dz6)] := by
    have hchart : (generate_paipan kb n1 n2 luo cur).liuqin =
        add_liuqin_paipan kb (liugong_entries kb rot luo n1 n2) luo := rfl
    rw [hchart]
    unfold add_liuqin_paipan
    simp only [hfindL, hinfoL, hr, List.filterMap_cons, List.filterMap_nil,
      hfind1, hfind2, hfind3, hfind4, hfind5, hfind6,
      hinfo1, hinfo2, hinfo3, hinfo4, hinfo5, hinfo6]
  refine ⟨_, hqins, ?_, ?_, by simp, ⟨dzL, ?_, ?_⟩, ?_⟩
  · -- label at the luogong position is 自身
    rw [qinLabelAt, hqins]
    interval_cases luo <;>
      simp [liuqin_entry, List.find?, calculate_liuqin_relation_self]
  · -- exactly one entry is labelled 自身
    interval_cases luo <;>
      simp [liuqin_entry, List.countP_cons, List.countP_nil,
        calculate_liuqin_relation_self, calculate_liuqin_relation_ne_self]
  · -- the taiji element is the element of the branch at the luogong position
    rw [← hland]; exact hdzsomeL
  · intro p hp
    fin_cases hp <;> rfl
  · -- the five-way mapping at non-self positions
    intro p hp hne
    fin_cases hp
    · have hne1 : (1 : Nat) ≠ luo := by simpa using hne
      have hbeq : ((1 : Nat) == luo) = false := beq_eq_false_iff_ne.mpr hne1
      simpa [liuqin_entry, hbeq] using
        calculate_liuqin_relation_cases kb dzL.wuxing dz1.wuxing
    · have hne1 : (2 : Nat) ≠ luo := by simpa using hne
      have hbeq : ((2 : Nat) == luo) = false := beq_eq_false_iff_ne.mpr hne1
      simpa [liuqin_entry, hbeq] using
        calculate_liuqin_relation_cases kb dzL.wuxing dz2.wuxing
    · have hne1 : (3 : Nat) ≠ luo := by simpa using hne
      have hbeq : ((3 : Nat) == luo) = false := beq_eq_false_iff_ne.mpr hne1
      simpa [liuqin_entry, hbeq] using
        calculate_liuqin_relation_cases kb dzL.wuxing dz3.wuxing
    · have hne1 : (4 : Nat) ≠ luo := by simpa using hne
      have hbeq : ((4 : Nat) == luo) = false := beq_eq_false_iff_ne.mpr hne1
      simpa [liuqin_entry, hbeq] using
        calculate_liuqin_relation_cases kb dzL.wuxing dz4.wuxing
    · have hne1 : (5 : Nat) ≠ luo := by simpa using hne
      have hbeq : ((5 : Nat) == luo) = false := beq_eq_false_iff_ne.mpr hne1
      simpa [liuqin_entry, hbeq] using
        calculate_liuqin_relation_cases kb dzL.wuxing dz5.wuxing
    · have hne1 : (6 : Nat) ≠ luo := by simpa using hne
      have hbeq : ((6 : Nat) == luo) = false := beq_eq_false_iff_ne.mpr hne1
      simpa [liuqin_entry, hbeq] using
        calculate_liuqin_relation_cases kb dzL.wuxing dz6.wuxing

/-- Witness for C2 at the spec's end-to-end example: luogong 1, kinship at
position 1 is `自身`. -/
theorem c2_liuqin_self_invariant_witness :
    (testKB.hasAllGong ∧ testKB.hasAllDizhi ∧ 1 ≤ 1 ∧ 1 ≤ 6 ∧ "巳" ∈ TWELVE_DIZHI) ∧
    (∃ qins, (generate_paipan testKB 3 5 1 "巳").liuqin = some qins ∧
      qinLabelAt (generate_paipan testKB 3 5 1 "巳") 1 = some "自身" ∧
      qins.countP (fun p => p.2.name = "自身") = 1 ∧
      qins.map Prod.fst = [1, 2, 3, 4, 5, 6] ∧
      (∃ tdz, testKB.get_dizhi_by_name "巳" = some tdz ∧
        ∀ p ∈ qins, p.2.taiji_wuxing = tdz.wuxing) ∧
      (∀ p ∈ qins, p.1 ≠ 1 →
        (testKB.get_wuxing_relation p.2.taiji_wuxing p.2.dizhi_wuxing = "生" →
          p.2.name = "子孙") ∧
        (testKB.get_wuxing_relation p.2.taiji_wuxing p.2.dizhi_wuxing = "克" →
          p.2.name = "妻财") ∧
        (testKB.get_wuxing_relation p.2.taiji_wuxing p.2.dizhi_wuxing = "生我" →
          p.2.name = "父母") ∧
        (testKB.get_wuxing_relation p.2.taiji_wuxing p.2.dizhi_wuxing = "克我" →
          p.2.name = "官鬼") ∧
        (testKB.get_wuxing_relation p.2.taiji_wuxing p.2.dizhi_wuxing = "同" →
          p.2.name = "兄弟"))) :=
  ⟨⟨by decide, by decide, by decide, by decide, by decide⟩,
    c2_liuqin_self_invariant testKB 3 5 1 "巳" (by decide) (by decide)
      (by decide) (by decide) (by decide)⟩

/-- A knowledge base identical to `testKB` except that its five-element
relation table is empty, modelling an incompletely loaded relation table. -/
def incompleteKB : KnowledgeBase := { testKB with wuxing_relations := [] }

/-- C10: `get_wuxing_relation` is total, returning `无关` when the first
element has no row or the row lacks the second element; an unmapped relation
at a non-self position makes the kinship computation return the fallback
`未知`, which is outside the six canonical kinship names, and such a label
can appear in a chart generated over an incomplete relation table. -/
theorem c10_wuxing_relation_fallback :
    (∀ kb : KnowledgeBase, ∀ e1 e2 : String,
      (kb.wuxing_relations.find? (fun p => p.1 = e1) = none →
        kb.get_wuxing_relation e1 e2 = "无关") ∧
      (∀ row, kb.wuxing_relations.find? (fun p => p.1 = e1) = some row →
        row.2.find? (fun p => p.1 = e2) = none →
        kb.get_wuxing_relation e1 e2 = "无关")) ∧
    (∀ kb : KnowledgeBase, ∀ me other : String,
      kb.get_wuxing_relation me other ∉ ["生", "克", "生我", "克我", "同"] →
      calculate_liuqin_relation kb me other false = "未知") ∧
    "未知" ∉ ["自身", "父母", "兄弟", "子孙", "官鬼", "妻财"] ∧
    qinLabelAt (generate_paipan incompleteKB 3 5 1 "巳") 2 = some "未知" := by
  refine ⟨?_, ?_, by decide, by decide⟩
  · intro kb e1 e2
    constructor
    · intro h
      unfold KnowledgeBase.get_wuxing_relation
      rw [h]
    · intro row hrow h2
      unfold KnowledgeBase.get_wuxing_relation
      simp only [hrow, h2]
  · intro kb me other h
    simp only [calculate_liuqin_relation, Bool.false_eq_true, if_false]
    split_ifs with h1 h2 h3 h4 h5
    · exact (h (by rw [h1]; decide)).elim
    · exact (h (by rw [h2]; decide)).elim
    · exact (h (by rw [h3]; decide)).elim
    · exact (h (by rw [h4]; decide)).elim
    · exact (h (by rw [h5]; decide)).elim
    · rfl

/-- Witness for C10: in the empty relation table `金` has no row, the
lookup degrades to `无关`, and the kinship label degrades to `未知`;
and in the seeded table a missing second element also degrades to `无关`. -/
theorem c10_wuxing_relation_fallback_witness :
    (incompleteKB.wuxing_relations.find? (fun p => p.1 = "金") = none ∧
      incompleteKB.get_wuxing_relation "金" "木" ∉ ["生", "克", "生我", "克我", "同"]) ∧
    incompleteKB.get_wuxing_relation "金" "木" = "无关" ∧
    calculate_liuqin_relation incompleteKB "金" "木" false = "未知" :=
  ⟨⟨by decide, by decide⟩,
    (c10_wuxing_relation_fallback.1 incompleteKB "金" "木").1 (by decide),
    c10_wuxing_relation_fallback.2.1 incompleteKB "金" "木" (by decide)⟩

/-! ## `LiurenAdapter.validate_input` (`xlr/adapters/liuren_adapter.py`) -/

/-- The runtime type of a `qigua_time` value, for the `isinstance(...,
(datetime, str))` check: a datetime object, a string, or anything else. -/
inductive TimeVal where
  | dt
  | str (s : String)
  | other
  deriving Repr, DecidableEq

/-- The inputs dict as the adapter inspects it.  Missing keys are `none`;
numeric values are embedded as `Int` (the pipeline always passes `int`s
here); for the non-qigua operations only key presence is inspected, so those
keys are embedded as presence flags. -/
structure AdapterInputs where
  operation : Option String
  number1 : Option Int
  number2 : Option Int
  qigua_time : Option TimeVal
  has_paipan_result : Bool
  has_question_type : Bool
  has_gender : Bool
  has_item_description : Bool
  deriving Repr, DecidableEq

/-- Embeds `LiurenAdapter.validate_input`: returns `True` or raises `ValueError`
(embedded as `Except.error` with the message).  It reads the inputs only
and never writes back a coerced value. -/
def validate_input (inputs : AdapterInputs) : Except String Bool :=
  if inputs.operation ∉ ([some "qigua", some "jiegua", some "find_object"] :
      List (Option String)) then
    .error "不支持的操作类型，支持: qigua, jiegua, find_object"
  else if inputs.operation = some "qigua" then
    match inputs.number1, inputs.number2 with
    | some num1, some num2 =>
      if ¬ (1 ≤ num1 ∧ num1 ≤ 6 ∧ 1 ≤ num2 ∧ num2 ≤ 6) then
        .error "报数必须在 1-6 之间"
      else
        match inputs.qigua_time with
        | none => .ok true
        | some TimeVal.dt => .ok true
        | some (TimeVal.str _) => .ok true
        | some TimeVal.other => .error "qigua_time 必须是 datetime 或 ISO格式字符串"
    | _, _ => .error "起卦需要 number1 和 number2 参数"
  else if inputs.operation = some "jiegua" then
    if ¬ inputs.has_paipan_result then .error "解卦需要 paipan_result 参数"
    else if ¬ (inputs.has_question_type ∧ inputs.has_gender) then
      .error "解卦需要 question_type 和 gender 参数"
    else .ok true
  else
    if ¬ inputs.has_paipan_result then .error "寻物需要 paipan_result 参数"
    else if ¬ inputs.has_item_description then .error "寻物需要 item_description 参数"
    else .ok true

/-- C6: for the qigua operation, `validate_input` returns true exactly when
both numbers are present and in [1,6] and `qigua_time`, if present, is a
datetime or string; it raises when a number is missing or out of range.
The function never modifies the inputs (it is read-only by construction). -/
theorem c6_adapter_validate_qigua (inputs : AdapterInputs)
    (hop : inputs.operation = some "qigua") :
    (∀ a b, inputs.number1 = some a → inputs.number2 = some b →
      (validate_input inputs = .ok true ↔
        (1 ≤ a ∧ a ≤ 6 ∧ 1 ≤ b ∧ b ≤ 6 ∧ inputs.qigua_time ≠ some TimeVal.other))) ∧
    (inputs.number1 = none ∨ inputs.number2 = none →
      validate_input inputs = .error "起卦需要 number1 和 number2 参数") ∧
    (∀ a b, inputs.number1 = some a → inputs.number2 = some b →
      ¬ (1 ≤ a ∧ a ≤ 6 ∧ 1 ≤ b ∧ b ≤ 6) →
      validate_input inputs = .error "报数必须在 1-6 之间") := by
  obtain ⟨op, n1, n2, qt, hp, hq, hg, hi⟩ := inputs
  simp only at hop
  subst hop
  refine ⟨?_, ?_, ?_⟩
  · intro a b ha hb
    simp only at ha hb
    subst ha; subst hb
    by_cases hr : 1 ≤ a ∧ a ≤ 6 ∧ 1 ≤ b ∧ b ≤ 6
    · cases qt with
      | none => simp [validate_input, hr]
      | some t => cases t <;> simp [validate_input, hr]
    · simp [validate_input, hr]
      omega
  · rintro (h | h)
    · simp only at h
      subst h
      cases n2 <;> simp [validate_input]
    · simp only at h
      subst h
      cases n1 <;> simp [validate_input]
  · intro a b ha hb hr
    simp only at ha hb
    subst ha; subst hb
    simp [validate_input, hr]

/-- Concrete qigua inputs for the C6 witness. -/
def qiguaInputsW : AdapterInputs :=
  { operation := some "qigua", number1 := some 3, number2 := some 5,
    qigua_time := none, has_paipan_result := false, has_question_type := false,
    has_gender := false, has_item_description := false }

/-- Witness for C6 at numbers (3,5) with no `qigua_time`. -/
theorem c6_adapter_validate_qigua_witness :
    qiguaInputsW.operation = some "qigua" ∧
    ((∀ a b, qiguaInputsW.number1 = some a → qiguaInputsW.number2 = some b →
      (validate_input qiguaInputsW = .ok true ↔
        (1 ≤ a ∧ a ≤ 6 ∧ 1 ≤ b ∧ b ≤ 6 ∧ qiguaInputsW.qigua_time ≠ some TimeVal.other))) ∧
    (qiguaInputsW.number1 = none ∨ qiguaInputsW.number2 = none →
      validate_input qiguaInputsW = .error "起卦需要 number1 和 number2 参数") ∧
    (∀ a b, qiguaInputsW.number1 = some a → qiguaInputsW.number2 = some b →
      ¬ (1 ≤ a ∧ a ≤ 6 ∧ 1 ≤ b ∧ b ≤ 6) →
      validate_input qiguaInputsW = .error "报数必须在 1-6 之间")) :=
  ⟨rfl, c6_adapter_validate_qigua qiguaInputsW rfl⟩

end XLR

namespace Orchestrator

/-! ## Character-level string helpers

The Python code uses `in` (substring), `re.findall(r"\d+", ...)`,
`int(...)` and `str.replace`.  These are embedded on `List Char` so that
they evaluate inside the kernel.  `\d` and `str.strip` are modelled with
ASCII digits / whitespace (the inputs the claims exercise are within that
fragment). -/

/-- Tests whether `pat` is a prefix of `hay` (character-wise). -/
def charsStartWith : List Char → List Char → Bool
  | _, [] => true
  | [], _ :: _ => false
  | c :: cs, p :: ps => c == p && charsStartWith cs ps

/-- Python's `pat in hay` substring test. -/
def charsContainsPat : List Char → List Char → Bool
  | [], pat => pat.isEmpty
  | c :: cs, pat => charsStartWith (c :: cs) pat || charsContainsPat cs pat

/-- Python's `needle in haystack` for strings. -/
def hasSubstr (haystack needle : String) : Bool :=
  charsContainsPat haystack.toList needle.toList

/-- Numeric value of a digit run. -/
def digitsVal (cs : List Char) : Nat :=
  cs.foldl (fun a c => a * 10 + (c.toNat - 48)) 0

/-- The values of the maximal digit runs of a string: `re.findall(r"\d+",
s)` followed by `int(...)`. -/
def digitRuns (s : String) : List Nat :=
  ((s.toList.splitOnP (fun c => !c.isDigit)).filter (fun l => ¬ l.isEmpty)).map digitsVal

/-- Python `int(s)` on a string: strip whitespace, optional sign, all
digits, else `ValueError` (`none`). -/
def parsePyInt (s : String) : Option Int :=
  let cs := s.toList.dropWhile Char.isWhitespace
  let cs := (cs.reverse.dropWhile Char.isWhitespace).reverse
  let digits : List Char → Option Nat := fun ds =>
    if ds ≠ [] ∧ ds.all Char.isDigit then some (digitsVal ds) else none
  match cs with
  | '-' :: rest => (digits rest).map (fun n => -(n : Int))
  | '+' :: rest => (digits rest).map (fun n => (n : Int))
  | _ => (digits cs).map (fun n => (n : Int))

/-- Embeds `str.replace` (all non-overlapping occurrences, left to right), with a
fuel argument for termination; a call site always passes a non-empty
pattern. -/
def replaceCharsAux : Nat → List Char → List Char → List Char → List Char
  | 0, hay, _, _ => hay
  | Nat.succ fuel, hay, pat, rep =>
    match hay with
    | [] => []
    | c :: cs =>
      if charsStartWith hay pat ∧ pat ≠ [] then
        rep ++ replaceCharsAux fuel (hay.drop pat.length) pat rep
      else c :: replaceCharsAux fuel cs pat rep

def strReplace (s pat rep : String) : String :=
  String.mk (replaceCharsAux s.toList.length s.toList pat.toList rep.toList)

/-! ## Slot values and slot sets (`agents/orchestrator.py`) -/

/-- A JSON slot value as the extractor returns it: an integer or a string.
(JSON `null` values and absent keys are conflated into `Option.none`; the
code treats them identically at every use site.) -/
inductive SlotVal where
  | vint (n : Int)
  | vstr (s : String)
  deriving Repr, DecidableEq

/-- Python `int(x)` on a slot value; `none` embeds the raised
`ValueError`. -/
def SlotVal.toIntOpt : SlotVal → Option Int
  | .vint n => some n
  | .vstr s => parsePyInt s

/-- Python truthiness of a slot value. -/
def SlotVal.truthy : SlotVal → Bool
  | .vint n => n != 0
  | .vstr s => s ≠ ""

/-- The slots dict, restricted to the keys the engine reads. -/
structure Slots where
  num1 : Option SlotVal
  num2 : Option SlotVal
  gender : Option SlotVal
  question_type : Option SlotVal
  ask_time : Option SlotVal
  algorithm_hint : Option String
  deriving Repr, DecidableEq

def emptySlots : Slots :=
  { num1 := none, num2 := none, gender := none, question_type := none,
    ask_time := none, algorithm_hint := none }

/-- The parsed LLM JSON as read by `_normalize_result`; each field is the
value of `result.get(key, default)`. -/
structure ExtractorResult where
  intent : Option String
  slots : Slots
  missing_slots : List String
  clarification_needed : Bool
  clarification_message : String
  ready_to_execute : Bool
  deriving Repr, DecidableEq

/-- The dict `_normalize_result` returns.  `validation_errors` is `[]`
when the Python dict lacks the key. -/
structure NormalizedResult where
  intent : String
  slots : Slots
  missing_slots : List String
  clarification_needed : Bool
  clarification_message : String
  ready_to_execute : Bool
  follow_up_count : Nat
  algorithm_hint : String
  validation_errors : List String
  deriving Repr, DecidableEq

/-- Mutable state of the slot-validation block: the slots dict plus the
`validation_errors` and `invalid_slots` accumulators. -/
structure ValState where
  slots : Slots
  validation_errors : List String
  invalid_slots : List String
  deriving Repr, DecidableEq

/-- The `num1` iteration of the `for num_field in ["num1", "num2"]` loop:
only a value that fails `int(...)` or is `< 1` is removed. -/
def validate_num1 (st : ValState) : ValState :=
  match st.slots.num1 with
  | none => st
  | some v =>
    match v.toIntOpt with
    | some n =>
      if n < 1 then
        { slots := { st.slots with num1 := none }
          validation_errors := st.validation_errors ++ ["num1必须是正整数"]
          invalid_slots := st.invalid_slots ++ ["num1"] }
      else { st with slots := { st.slots with num1 := some (SlotVal.vint n) } }
    | none =>
      { slots := { st.slots with num1 := none }
        validation_errors := st.validation_errors ++ ["num1必须是整数"]
        invalid_slots := st.invalid_slots ++ ["num1"] }

/-- The `num2` iteration of the same loop. -/
def validate_num2 (st : ValState) : ValState :=
  match st.slots.num2 with
  | none => st
  | some v =>
    match v.toIntOpt with
    | some n =>
      if n < 1 then
        { slots := { st.slots with num2 := none }
          validation_errors := st.validation_errors ++ ["num2必须是正整数"]
          invalid_slots := st.invalid_slots ++ ["num2"] }
      else { st with slots := { st.slots with num2 := some (SlotVal.vint n) } }
    | none =>
      { slots := { st.slots with num2 := none }
        validation_errors := st.validation_errors ++ ["num2必须是整数"]
        invalid_slots := st.invalid_slots ++ ["num2"] }

/-- The gender validation: a present truthy value outside 男/女 is
removed. -/
def validate_gender (st : ValState) : ValState :=
  match st.slots.gender with
  | none => st
  | some g =>
    if g.truthy then
      if g = SlotVal.vstr "男" ∨ g = SlotVal.vstr "女" then st
      else
        { slots := { st.slots with gender := none }
          validation_errors := st.validation_errors ++ ["性别必须是男或女"]
          invalid_slots := st.invalid_slots ++ ["gender"] }
    else st

/-- The required-slot completeness list
`[s for s in required_slots if s not in slots or slots[s] is None]`. -/
def required_missing (st : ValState) : List String :=
  (if st.slots.num1.isNone then ["num1"] else []) ++
  (if st.slots.num2.isNone then ["num2"] else []) ++
  (if st.slots.gender.isNone then ["gender"] else [])

/-- The tail of `_normalize_result` after the three validation steps
(factored out): error marking, required-slot completeness, and the
unconditional defaults block. -/
def finalize_result (base : NormalizedResult) (st : ValState)
    (context_local_time : Option String) (now_iso : String) : NormalizedResult :=
  let n1 :=
    if st.validation_errors ≠ [] then
      { base with
        clarification_needed := true
        ready_to_execute := false
        validation_errors := st.validation_errors
        missing_slots :=
          base.missing_slots ++ st.invalid_slots.map (fun f => "invalid_" ++ f) }
    else base
  let missing := required_missing st
  let n2 :=
    if missing ≠ [] then
      { n1 with
        missing_slots := (n1.missing_slots ++ missing).dedup
        clarification_needed := true
        ready_to_execute := false }
    else { n1 with ready_to_execute := true, clarification_needed := false }
  let slots1 := st.slots
  let time_default := SlotVal.vstr (context_local_time.getD now_iso)
  let slots2 :=
    match slots1.ask_time with
    | some v =>
      if v.truthy then slots1
      else { slots1 with ask_time := some time_default }
    | none => { slots1 with ask_time := some time_default }
  let slots3 :=
    match slots2.question_type with
    | some v =>
      if v.truthy then slots2
      else { slots2 with question_type := some (SlotVal.vstr "综合") }
    | none => { slots2 with question_type := some (SlotVal.vstr "综合") }
  { n2 with slots := slots3 }

/-- Embeds `OrchestratorAgent._normalize_result`.  Here `context_local_time` is
`context_data.get("local_time")`; `now_iso` is the value
`datetime.now().astimezone().isoformat()` would produce, passed explicitly
so the embedding stays pure.  Python's `list(set(...))` has unspecified
order; it is embedded as `List.dedup` and claims only use membership. -/
def normalize_result (result : ExtractorResult) (follow_up_count : Nat)
    (context_local_time : Option String) (now_iso : String) : NormalizedResult :=
  let base : NormalizedResult :=
    { intent := result.intent.getD "divination"
      slots := result.slots
      missing_slots := result.missing_slots
      clarification_needed := result.clarification_needed
      clarification_message := result.clarification_message
      ready_to_execute := result.ready_to_execute
      follow_up_count := follow_up_count
      algorithm_hint := result.slots.algorithm_hint.getD "xlr-liuren"
      validation_errors := [] }
  let st := validate_gender (validate_num2 (validate_num1 ⟨result.slots, [], []⟩))
  finalize_result base st context_local_time now_iso

/-! ## Input guardrails (`OrchestratorAgent._validate_input`) -/

structure ValidationOutcome where
  valid : Bool
  error_message : String
  deriving Repr, DecidableEq

/-- The forbidden-topic word list of `_validate_input`. -/
def forbidden_topics : List String :=
  ["政治", "暴力", "色情", "赌博", "毒品", "自杀", "犯罪",
   "生死", "疾病", "医疗", "股票", "彩票"]

/-- Embeds `OrchestratorAgent._validate_input`.  The `re.search` over the four
injection regexes is abstracted as the predicate `dangerous` (a parameter
of the model): the claims never depend on which strings match it.
`len(s.strip()) == 0` is embedded as all-whitespace. -/
def validate_user_input (dangerous : String → Bool) (user_input : String) :
    ValidationOutcome :=
  if user_input = "" ∨ user_input.toList.all Char.isWhitespace then
    { valid := false, error_message := "请输入您的问题" }
  else if user_input.length > 1000 then
    { valid := false, error_message := "问题过长，请精简到 1000 字以内" }
  else if dangerous user_input then
    { valid := false, error_message := "输入包含非法字符，请使用自然语言提问" }
  else
    match forbidden_topics.find? (fun topic => hasSubstr user_input topic) with
    | some topic =>
      { valid := false
        error_message := "抱歉，本系统不支持关于「" ++ topic ++
          "」的问题。占卜仅供娱乐参考，请勿用于重大决策。" }
    | none =>
      if (digitRuns user_input).any (fun n => n > 1000000) then
        { valid := false, error_message := "输入包含异常数字，请检查后重试" }
      else { valid := true, error_message := "" }

/-! ## Clarification templates and responses -/

/-- Embeds `self.slot_filling_templates.get(key, default)` over the templates
loaded from `prompts/scenarios/slot_filling.md` (an external file, so the
table is a parameter of the model). -/
def templateGet (templates : List (String × String)) (key dflt : String) : String :=
  ((templates.find? (fun p => p.1 = key)).map Prod.snd).getD dflt

def slot_names : List (String × String) :=
  [("num1", "第一个报数"), ("num2", "第二个报数"),
   ("gender", "性别"), ("question_type", "问题类型")]

/-- Embeds `OrchestratorAgent._generate_clarification_message`.  (Its
`current_slots` parameter is never read by the body and is omitted.)  When
a single missing slot is none of the four known names, control falls
through to the multi-slot template, as in the source. -/
def generate_clarification_message (templates : List (String × String))
    (missing_slots : List String) : String :=
  let hasInvalid := missing_slots.any (fun slot => hasSubstr slot "invalid")
  if hasInvalid ∧
      (missing_slots.contains "invalid_num1" ∨ missing_slots.contains "invalid_num2") then
    templateGet templates "报数范围错误" "报数必须在1到6之间"
  else if hasInvalid ∧ missing_slots.contains "invalid_gender" then
    templateGet templates "性别格式错误" "请提供有效的性别：男或女"
  else
    let ms := missing_slots.filter
      (fun s => !(charsStartWith s.toList "invalid_".toList))
    let single :=
      if ms.length = 1 then
        let slot := ms.headD ""
        if slot = "num1" ∨ slot = "num2" then
          some (templateGet templates "缺失报数（num1 或 num2）"
            "请问您想报哪两个数字？（1到6之间的整数）")
        else if slot = "gender" then
          some (templateGet templates "缺失性别" "请问您的性别是？（男/女）")
        else if slot = "question_type" then
          some (templateGet templates "缺失问题类型" "请问您想问什么方面的问题呢？")
        else none
      else none
    match single with
    | some msg => msg
    | none =>
      let missing_desc := String.intercalate "、"
        (ms.map (fun s => (templateGet slot_names s s)))
      let template := templateGet templates "多个槽位缺失" ""
      strReplace template "\x7bmissing_slots_description\x7d" missing_desc

/-- A response dict of `OrchestratorAgent.process`; keys that some branches
leave out are `Option`s (`none` = key absent). -/
structure ProcessResponse where
  intent : String
  ready_to_execute : Bool
  slots : Option Slots
  missing_slots : Option (List String)
  clarification_needed : Option Bool
  clarification_message : Option String
  follow_up_count : Option Nat
  algorithm_hint : Option String
  validation_errors : Option (List String)
  error_message : Option String
  error : Option String
  deriving Repr, DecidableEq

/-- The bound `self.max_follow_ups`. -/
def max_follow_ups : Nat := 3

/-- Embeds `OrchestratorAgent._create_max_follow_ups_response`. -/
def create_max_follow_ups_response (templates : List (String × String)) :
    ProcessResponse :=
  { intent := "error"
    ready_to_execute := false
    slots := some emptySlots
    missing_slots := some []
    clarification_needed := some false
    clarification_message := some (templateGet templates "追问次数超限"
      "看起来我们在沟通上有些困难。不如重新开始吧？")
    follow_up_count := some max_follow_ups
    algorithm_hint := none
    validation_errors := none
    error_message := none
    error := some "max_follow_ups_exceeded" }

/-- Embeds `OrchestratorAgent._create_error_response`. -/
def create_error_response (message : String) : ProcessResponse :=
  { intent := "error"
    ready_to_execute := false
    slots := some emptySlots
    missing_slots := some []
    clarification_needed := some false
    clarification_message := some message
    follow_up_count := some 0
    algorithm_hint := none
    validation_errors := none
    error_message := none
    error := some "processing_error" }

/-- Outcome of the LLM extraction call: parsed JSON, a
`json.JSONDecodeError`, or any other exception. -/
inductive ExtractOutcome where
  | ok (result : ExtractorResult)
  | jsonError
  | callError
  deriving Repr, DecidableEq

/-- The dict returned on the normal path (the normalized result, its keys
all present). -/
def toResponse (n : NormalizedResult) : ProcessResponse :=
  { intent := n.intent
    ready_to_execute := n.ready_to_execute
    slots := some n.slots
    missing_slots := some n.missing_slots
    clarification_needed := some n.clarification_needed
    clarification_message := some n.clarification_message
    follow_up_count := some n.follow_up_count
    algorithm_hint := some n.algorithm_hint
    validation_errors := if n.validation_errors = [] then none else some n.validation_errors
    error_message := none
    error := none }

/-- Embeds `OrchestratorAgent.process`.  The LLM call is the oracle `extract`;
the injection-regex matcher is the oracle `dangerous`; `now_iso` stands for
the execution clock (see `normalize_result`). -/
def process (templates : List (String × String)) (dangerous : String → Bool)
    (extract : String → ExtractOutcome) (user_input : String)
    (current_slots : Option Slots) (follow_up_count : Nat)
    (context_local_time : Option String) (now_iso : String) : ProcessResponse :=
  let v := validate_user_input dangerous user_input
  if v.valid = false then
    { intent := "error"
      ready_to_execute := false
      slots := some (current_slots.getD emptySlots)
      missing_slots := none
      clarification_needed := none
      clarification_message := none
      follow_up_count := none
      algorithm_hint := none
      validation_errors := none
      error_message := some v.error_message
      error := none }
  else if follow_up_count ≥ max_follow_ups then
    create_max_follow_ups_response templates
  else
    match extract user_input with
    | .ok result =>
      let n := normalize_result result follow_up_count context_local_time now_iso
      let n :=
        if n.clarification_needed then
          { n with clarification_message :=
              generate_clarification_message templates n.missing_slots }
        else n
      toResponse n
    | .jsonError => create_error_response "解析失败，请重新描述您的问题"
    | .callError => create_error_response "处理失败，请稍后重试"

/-! ## Structural lemmas about the validation and finalization steps -/

theorem validate_num1_keeps_num2 (st : ValState) :
    (validate_num1 st).slots.num2 = st.slots.num2 := by
  unfold validate_num1; repeat' split
  all_goals rfl

theorem validate_num1_keeps_gender (st : ValState) :
    (validate_num1 st).slots.gender = st.slots.gender := by
  unfold validate_num1; repeat' split
  all_goals rfl

theorem validate_num1_keeps_ask_time (st : ValState) :
    (validate_num1 st).slots.ask_time = st.slots.ask_time := by
  unfold validate_num1; repeat' split
  all_goals rfl

theorem validate_num1_keeps_question_type (st : ValState) :
    (validate_num1 st).slots.question_type = st.slots.question_type := by
  unfold validate_num1; repeat' split
  all_goals rfl

theorem validate_num2_keeps_num1 (st : ValState) :
    (validate_num2 st).slots.num1 = st.slots.num1 := by
  unfold validate_num2; repeat' split
  all_goals rfl

theorem validate_num2_keeps_gender (st : ValState) :
    (validate_num2 st).slots.gender = st.slots.gender := by
  unfold validate_num2; repeat' split
  all_goals rfl

theorem validate_num2_keeps_ask_time (st : ValState) :
    (validate_num2 st).slots.ask_time = st.slots.ask_time := by
  unfold validate_num2; repeat' split
  all_goals rfl

theorem validate_num2_keeps_question_type (st : ValState) :
    (validate_num2 st).slots.question_type = st.slots.question_type := by
  unfold validate_num2; repeat' split
  all_goals rfl

theorem validate_gender_keeps_num1 (st : ValState) :
    (validate_gender st).slots.num1 = st.slots.num1 := by
  unfold validate_gender; repeat' split
  all_goals rfl

theorem validate_gender_keeps_num2 (st : ValState) :
    (validate_gender st).slots.num2 = st.slots.num2 := by
  unfold validate_gender; repeat' split
  all_goals rfl

theorem validate_gender_keeps_ask_time (st : ValState) :
    (validate_gender st).slots.ask_time = st.slots.ask_time := by
  unfold validate_gender; repeat' split
  all_goals rfl

theorem validate_gender_keeps_question_type (st : ValState) :
    (validate_gender st).slots.question_type = st.slots.question_type := by
  unfold validate_gender; repeat' split
  all_goals rfl

theorem validate_num2_errors_append (st : ValState) :
    ∃ l, (validate_num2 st).validation_errors = st.validation_errors ++ l := by
  unfold validate_num2; repeat' split
  · exact ⟨[], by simp⟩
  · exact ⟨_, rfl⟩
  · exact ⟨[], by simp⟩
  · exact ⟨_, rfl⟩

theorem validate_gender_errors_append (st : ValState) :
    ∃ l, (validate_gender st).validation_errors = st.validation_errors ++ l := by
  unfold validate_gender; repeat' split
  · exact ⟨[], by simp⟩
  · exact ⟨[], by simp⟩
  · exact ⟨_, rfl⟩
  · exact ⟨[], by simp⟩

theorem validate_num2_invalid_append (st : ValState) :
    ∃ l, (validate_num2 st).invalid_slots = st.invalid_slots ++ l := by
  unfold validate_num2; repeat' split
  · exact ⟨[], by simp⟩
  · exact ⟨_, rfl⟩
  · exact ⟨[], by simp⟩
  · exact ⟨_, rfl⟩

theorem validate_gender_invalid_append (st : ValState) :
    ∃ l, (validate_gender st).invalid_slots = st.invalid_slots ++ l := by
  unfold validate_gender; repeat' split
  · exact ⟨[], by simp⟩
  · exact ⟨[], by simp⟩
  · exact ⟨_, rfl⟩
  · exact ⟨[], by simp⟩

theorem finalize_slots_num1 (base : NormalizedResult) (st : ValState)
    (ctx : Option String) (now : String) :
    (finalize_result base st ctx now).slots.num1 = st.slots.num1 := by
  simp only [finalize_result]
  repeat' split
  all_goals rfl

theorem finalize_slots_num2 (base : NormalizedResult) (st : ValState)
    (ctx : Option String) (now : String) :
    (finalize_result base st ctx now).slots.num2 = st.slots.num2 := by
  simp only [finalize_result]
  repeat' split
  all_goals rfl

theorem finalize_slots_gender (base : NormalizedResult) (st : ValState)
    (ctx : Option String) (now : String) :
    (finalize_result base st ctx now).slots.gender = st.slots.gender := by
  simp only [finalize_result]
  repeat' split
  all_goals rfl

theorem finalize_flags_of_missing (base : NormalizedResult) (st : ValState)
    (ctx : Option String) (now : String) (hm : required_missing st ≠ []) :
    (finalize_result base st ctx now).clarification_needed = true ∧
    (finalize_result base st ctx now).ready_to_execute = false := by
  simp only [finalize_result]
  rw [if_pos hm]
  exact ⟨rfl, rfl⟩

theorem finalize_flags_of_complete (base : NormalizedResult) (st : ValState)
    (ctx : Option String) (now : String) (hm : required_missing st = []) :
    (finalize_result base st ctx now).clarification_needed = false ∧
    (finalize_result base st ctx now).ready_to_execute = true := by
  simp only [finalize_result]
  rw [if_neg (by simp [hm])]
  exact ⟨rfl, rfl⟩

theorem finalize_missing_mem (base : NormalizedResult) (st : ValState)
    (ctx : Option String) (now : String) (x : String)
    (herr : st.validation_errors ≠ []) (hm : required_missing st ≠ [])
    (hx : x ∈ base.missing_slots ++ st.invalid_slots.map (fun f => "invalid_" ++ f)) :
    x ∈ (finalize_result base st ctx now).missing_slots := by
  simp only [finalize_result]
  rw [if_pos herr, if_pos hm]
  show x ∈ List.dedup _
  rw [List.mem_dedup]
  exact List.mem_append_left _ hx

theorem finalize_ask_time_default (base : NormalizedResult) (st : ValState)
    (ctx : Option String) (now : String)
    (h : st.slots.ask_time = none ∨ ∃ v, st.slots.ask_time = some v ∧ v.truthy = false) :
    (finalize_result base st ctx now).slots.ask_time =
      some (SlotVal.vstr (ctx.getD now)) := by
  rcases h with h | ⟨v, hv, htr⟩
  · simp only [finalize_result, h]
    repeat' split
    all_goals rfl
  · simp only [finalize_result, hv, htr, Bool.false_eq_true, if_false]
    repeat' split
    all_goals rfl

theorem finalize_ask_time_kept (base : NormalizedResult) (st : ValState)
    (ctx : Option String) (now : String) (v : SlotVal)
    (hv : st.slots.ask_time = some v) (htr : v.truthy = true) :
    (finalize_result base st ctx now).slots.ask_time = some v := by
  simp only [finalize_result, hv, htr, if_true]
  repeat' split
  all_goals rw [← hv]

theorem finalize_question_type_default (base : NormalizedResult) (st : ValState)
    (ctx : Option String) (now : String)
    (h : st.slots.question_type = none ∨
      ∃ v, st.slots.question_type = some v ∧ v.truthy = false) :
    (finalize_result base st ctx now).slots.question_type =
      some (SlotVal.vstr "综合") := by
  rcases h with h | ⟨v, hv, htr⟩
  · simp only [finalize_result]
    repeat' split
    all_goals simp_all
  · simp only [finalize_result]
    repeat' split
    all_goals simp_all

theorem validate_num1_invalid (st : ValState) (v : SlotVal) (hv : st.slots.num1 = some v)
    (hinv : v.toIntOpt = none ∨ ∃ n, v.toIntOpt = some n ∧ n < 1) :
    (validate_num1 st).slots.num1 = none ∧
    (validate_num1 st).validation_errors ≠ [] ∧
    "num1" ∈ (validate_num1 st).invalid_slots := by
  rcases hinv with hpn | ⟨n, hn, hlt⟩
  · simp [validate_num1, hv, hpn]
  · simp [validate_num1, hv, hn, hlt]

theorem validate_num1_valid (st : ValState) (v : SlotVal) (n : Int)
    (hv : st.slots.num1 = some v) (hn : v.toIntOpt = some n) (hge : 1 ≤ n) :
    (validate_num1 st).slots.num1 = some (SlotVal.vint n) := by
  have hnlt : ¬ (n < 1) := by omega
  simp [validate_num1, hv, hn, hnlt]

theorem validate_num2_invalid (st : ValState) (v : SlotVal) (hv : st.slots.num2 = some v)
    (hinv : v.toIntOpt = none ∨ ∃ n, v.toIntOpt = some n ∧ n < 1) :
    (validate_num2 st).slots.num2 = none ∧
    (validate_num2 st).validation_errors ≠ [] ∧
    "num2" ∈ (validate_num2 st).invalid_slots := by
  rcases hinv with hpn | ⟨n, hn, hlt⟩
  · simp [validate_num2, hv, hpn]
  · simp [validate_num2, hv, hn, hlt]

theorem validate_num2_valid (st : ValState) (v : SlotVal) (n : Int)
    (hv : st.slots.num2 = some v) (hn : v.toIntOpt = some n) (hge : 1 ≤ n) :
    (validate_num2 st).slots.num2 = some (SlotVal.vint n) := by
  have hnlt : ¬ (n < 1) := by omega
  simp [validate_num2, hv, hn, hnlt]

theorem required_missing_ne_of_num1 (st : ValState) (h : st.slots.num1 = none) :
    required_missing st ≠ [] := by
  simp [required_missing, h]

theorem required_missing_ne_of_num2 (st : ValState) (h : st.slots.num2 = none) :
    required_missing st ≠ [] := by
  simp [required_missing, h]

/-- C5 (amended): a numeric slot whose value fails integer parsing or is
less than 1 is removed, marked `invalid_<field>` in `missing_slots`, and
forces clarification; a value that parses to an integer `≥ 1` — including
values above 6 — is kept (as the parsed integer), not removed. -/
theorem c5_numeric_slot_validation (r : ExtractorResult) (fup : Nat)
    (ctx : Option String) (now : String) :
    (∀ v, r.slots.num1 = some v →
      (v.toIntOpt = none ∨ ∃ n, v.toIntOpt = some n ∧ n < 1) →
      (normalize_result r fup ctx now).slots.num1 = none ∧
      "invalid_num1" ∈ (normalize_result r fup ctx now).missing_slots ∧
      (normalize_result r fup ctx now).clarification_needed = true ∧
      (normalize_result r fup ctx now).ready_to_execute = false) ∧
    (∀ v, r.slots.num2 = some v →
      (v.toIntOpt = none ∨ ∃ n, v.toIntOpt = some n ∧ n < 1) →
      (normalize_result r fup ctx now).slots.num2 = none ∧
      "invalid_num2" ∈ (normalize_result r fup ctx now).missing_slots ∧
      (normalize_result r fup ctx now).clarification_needed = true ∧
      (normalize_result r fup ctx now).ready_to_execute = false) ∧
    (∀ v n, r.slots.num1 = some v → v.toIntOpt = some n → 1 ≤ n →
      (normalize_result r fup ctx now).slots.num1 = some (SlotVal.vint n)) ∧
    (∀ v n, r.slots.num2 = some v → v.toIntOpt = some n → 1 ≤ n →
      (normalize_result r fup ctx now).slots.num2 = some (SlotVal.vint n)) := by
  obtain ⟨base, hbase⟩ :
      ∃ base, normalize_result r fup ctx now =
        finalize_result base
          (validate_gender (validate_num2 (validate_num1 ⟨r.slots, [], []⟩)))
          ctx now := ⟨_, rfl⟩
  have hmapmem : ∀ (st : ValState) (f : String),
      f ∈ st.invalid_slots →
      ("invalid_" ++ f) ∈ base.missing_slots ++
        st.invalid_slots.map (fun g => "invalid_" ++ g) := by
    intro st f hf
    exact List.mem_append_right _ (List.mem_map_of_mem _ hf)
  refine ⟨?_, ?_, ?_, ?_⟩
  · intro v hv hinv
    obtain ⟨h1, h2, h3⟩ :=
      validate_num1_invalid ⟨r.slots, [], []⟩ v hv hinv
    set st1 := validate_num1 ⟨r.slots, [], []⟩ with hst1
    set st2 := validate_num2 st1 with hst2
    set st3 := validate_gender st2 with hst3
    have hn12 : st2.slots.num1 = none := by
      rw [validate_num2_keeps_num1, h1]
    have hn13 : st3.slots.num1 = none := by
      rw [validate_gender_keeps_num1, hn12]
    obtain ⟨l2, hl2⟩ := validate_num2_errors_append st1
    obtain ⟨l3, hl3⟩ := validate_gender_errors_append st2
    have herr : st3.validation_errors ≠ [] := by
      rw [hl3, hl2]
      intro hc
      exact h2 (List.append_eq_nil.mp (List.append_eq_nil.mp hc).1).1
    obtain ⟨i2, hi2⟩ := validate_num2_invalid_append st1
    obtain ⟨i3, hi3⟩ := validate_gender_invalid_append st2
    have hinv3 : "num1" ∈ st3.invalid_slots := by
      rw [hi3, hi2]
      exact List.mem_append_left _ (List.mem_append_left _ h3)
    have hm := required_missing_ne_of_num1 st3 hn13
    obtain ⟨hc, hr⟩ := finalize_flags_of_missing base st3 ctx now hm
    refine ⟨?_, ?_, ?_, ?_⟩
    · rw [hbase, finalize_slots_num1]; exact hn13
    · rw [hbase]
      exact finalize_missing_mem base st3 ctx now _ herr hm (hmapmem st3 "num1" hinv3)
    · rw [hbase]; exact hc
    · rw [hbase]; exact hr
  · intro v hv hinv
    set st1 := validate_num1 ⟨r.slots, [], []⟩ with hst1
    have hv1 : st1.slots.num2 = some v := by
      rw [validate_num1_keeps_num2]; exact hv
    obtain ⟨h1, h2, h3⟩ := validate_num2_invalid st1 v hv1 hinv
    set st2 := validate_num2 st1 with hst2
    set st3 := validate_gender st2 with hst3
    have hn23 : st3.slots.num2 = none := by
      rw [validate_gender_keeps_num2]; exact h1
    obtain ⟨l3, hl3⟩ := validate_gender_errors_append st2
    have herr : st3.validation_errors ≠ [] := by
      rw [hl3]
      intro hc
      exact h2 (List.append_eq_nil.mp hc).1
    obtain ⟨i3, hi3⟩ := validate_gender_invalid_append st2
    have hinv3 : "num2" ∈ st3.invalid_slots := by
      rw [hi3]
      exact List.mem_append_left _ h3
    have hm := required_missing_ne_of_num2 st3 hn23
    obtain ⟨hc, hr⟩ := finalize_flags_of_missing base st3 ctx now hm
    refine ⟨?_, ?_, ?_, ?_⟩
    · rw [hbase, finalize_slots_num2]; exact hn23
    · rw [hbase]
      exact finalize_missing_mem base st3 ctx now _ herr hm (hmapmem st3 "num2" hinv3)
    · rw [hbase]; exact hc
    · rw [hbase]; exact hr
  · intro v n hv hn hge
    have h1 := validate_num1_valid ⟨r.slots, [], []⟩ v n hv hn hge
    rw [hbase, finalize_slots_num1, validate_gender_keeps_num1,
      validate_num2_keeps_num1]
    exact h1
  · intro v n hv hn hge
    set st1 := validate_num1 ⟨r.slots, [], []⟩ with hst1
    have hv1 : st1.slots.num2 = some v := by
      rw [validate_num1_keeps_num2]; exact hv
    have h1 := validate_num2_valid st1 v n hv1 hn hge
    rw [hbase, finalize_slots_num2, validate_gender_keeps_num2]
    exact h1

/-- The C5 counterexample extractor output: `num1 = 7` (outside [1,6]),
`num2 = 3`, gender 男. -/
def c5_input : ExtractorResult :=
  { intent := some "divination"
    slots := { num1 := some (SlotVal.vint 7), num2 := some (SlotVal.vint 3),
               gender := some (SlotVal.vstr "男"), question_type := none,
               ask_time := none, algorithm_hint := none }
    missing_slots := []
    clarification_needed := false
    clarification_message := ""
    ready_to_execute := false }

/-- Counterexample to C5 as stated: the numeric slot value 7 lies outside
[1,6], yet normalization keeps it, adds no `invalid_num1` marker, needs no
clarification, and reports ready to execute. -/
theorem c5_counterexample_seven_kept :
    (normalize_result c5_input 0 (some "2025-01-01T08:00:00+08:00") "now").slots.num1 =
      some (SlotVal.vint 7) ∧
    "invalid_num1" ∉
      (normalize_result c5_input 0 (some "2025-01-01T08:00:00+08:00") "now").missing_slots ∧
    (normalize_result c5_input 0 (some "2025-01-01T08:00:00+08:00") "now").clarification_needed
      = false ∧
    (normalize_result c5_input 0 (some "2025-01-01T08:00:00+08:00") "now").ready_to_execute
      = true := by
  decide

/-- Witness for the amended C5 at the concrete values 0 (removed, below 1)
and 9 (kept, above 6). -/
theorem c5_numeric_slot_validation_witness :
    ((c5_input.slots.num1 = some (SlotVal.vint 7) ∧
        (SlotVal.vint 7).toIntOpt = some 7 ∧ (1 : Int) ≤ 7) ∧
      (normalize_result c5_input 0 none "now").slots.num1 = some (SlotVal.vint 7)) ∧
    ((∀ v, c5_input.slots.num2 = some v →
        (v.toIntOpt = none ∨ ∃ n, v.toIntOpt = some n ∧ n < 1) →
        (normalize_result c5_input 0 none "now").slots.num2 = none ∧
        "invalid_num2" ∈ (normalize_result c5_input 0 none "now").missing_slots ∧
        (normalize_result c5_input 0 none "now").clarification_needed = true ∧
        (normalize_result c5_input 0 none "now").ready_to_execute = false)) :=
  ⟨⟨⟨by decide, by decide, by decide⟩,
      (c5_numeric_slot_validation c5_input 0 none "now").2.2.1 (SlotVal.vint 7) 7
        (by decide) (by decide) (by decide)⟩,
    (c5_numeric_slot_validation c5_input 0 none "now").2.1⟩

/-- C8 (amended): the optional-slot defaults are applied on every
normalized turn — clarifying or not: an absent or falsy `ask_time` becomes
the supplied context time or else the execution clock, an absent or falsy
`question_type` becomes `综合`, and a truthy `ask_time` is kept. -/
theorem c8_defaults_every_turn (r : ExtractorResult) (fup : Nat)
    (ctx : Option String) (now : String) :
    ((r.slots.ask_time = none ∨ ∃ v, r.slots.ask_time = some v ∧ v.truthy = false) →
      (normalize_result r fup ctx now).slots.ask_time =
        some (SlotVal.vstr (ctx.getD now))) ∧
    ((r.slots.question_type = none ∨
        ∃ v, r.slots.question_type = some v ∧ v.truthy = false) →
      (normalize_result r fup ctx now).slots.question_type =
        some (SlotVal.vstr "综合")) ∧
    (∀ v, r.slots.ask_time = some v → v.truthy = true →
      (normalize_result r fup ctx now).slots.ask_time = some v) := by
  obtain ⟨base, hbase⟩ :
      ∃ base, normalize_result r fup ctx now =
        finalize_result base
          (validate_gender (validate_num2 (validate_num1 ⟨r.slots, [], []⟩)))
          ctx now := ⟨_, rfl⟩
  set st3 := validate_gender (validate_num2 (validate_num1 ⟨r.slots, [], []⟩)) with hst3
  have hat : st3.slots.ask_time = r.slots.ask_time := by
    rw [hst3, validate_gender_keeps_ask_time, validate_num2_keeps_ask_time,
      validate_num1_keeps_ask_time]
  have hqt : st3.slots.question_type = r.slots.question_type := by
    rw [hst3, validate_gender_keeps_question_type, validate_num2_keeps_question_type,
      validate_num1_keeps_question_type]
  refine ⟨?_, ?_, ?_⟩
  · intro h
    rw [hbase]
    refine finalize_ask_time_default base st3 ctx now ?_
    rw [hat]; exact h
  · intro h
    rw [hbase]
    refine finalize_question_type_default base st3 ctx now ?_
    rw [hqt]; exact h
  · intro v hv htr
    rw [hbase]
    exact finalize_ask_time_kept base st3 ctx now v (by rw [hat]; exact hv) htr

/-- The C8 counterexample extractor output: nothing extracted at all, so
the turn ends in clarification. -/
def c8_input : ExtractorResult :=
  { intent := some "divination"
    slots := emptySlots
    missing_slots := []
    clarification_needed := false
    clarification_message := ""
    ready_to_execute := false }

/-- Counterexample to C8 as stated: this turn ends in clarification
(required slots missing), yet `ask_time` and `question_type` are defaulted
rather than left unset. -/
theorem c8_counterexample_defaults_in_clarifying_turn :
    (normalize_result c8_input 0 (some "2025-05-01T10:00:00+08:00") "now").clarification_needed
      = true ∧
    (normalize_result c8_input 0 (some "2025-05-01T10:00:00+08:00") "now").ready_to_execute
      = false ∧
    (normalize_result c8_input 0 (some "2025-05-01T10:00:00+08:00") "now").slots.ask_time =
      some (SlotVal.vstr "2025-05-01T10:00:00+08:00") ∧
    (normalize_result c8_input 0 (some "2025-05-01T10:00:00+08:00") "now").slots.question_type
      = some (SlotVal.vstr "综合") := by
  decide

/-- Witness for the amended C8: an empty extraction with a supplied context
time gets both defaults. -/
theorem c8_defaults_every_turn_witness :
    (c8_input.slots.ask_time = none ∧ c8_input.slots.question_type = none) ∧
    ((normalize_result c8_input 0 (some "2025-05-01T10:00:00+08:00") "now").slots.ask_time =
      some (SlotVal.vstr ((some "2025-05-01T10:00:00+08:00").getD "now")) ∧
    (normalize_result c8_input 0 (some "2025-05-01T10:00:00+08:00") "now").slots.question_type
      = some (SlotVal.vstr "综合")) :=
  ⟨⟨rfl, rfl⟩,
    (c8_defaults_every_turn c8_input 0 (some "2025-05-01T10:00:00+08:00") "now").1
      (Or.inl rfl),
    (c8_defaults_every_turn c8_input 0 (some "2025-05-01T10:00:00+08:00") "now").2.1
      (Or.inl rfl)⟩

/-- C7 (amended): for every input text that passes the guardrail pre-check,
calling `process` with `follow_up_count = max_follow_ups` returns the
terminal restart response (`error = max_follow_ups_exceeded`, the restart
clarification message, `ready_to_execute = false`). -/
theorem c7_max_follow_ups_bound (templates : List (String × String))
    (dangerous : String → Bool) (extract : String → ExtractOutcome)
    (text : String) (cur : Option Slots) (ctx : Option String) (now : String)
    (hvalid : (validate_user_input dangerous text).valid = true) :
    process templates dangerous extract text cur max_follow_ups ctx now =
      create_max_follow_ups_response templates := by
  simp [process, hvalid]

/-- Witness for the amended C7 on a benign input. -/
theorem c7_max_follow_ups_bound_witness :
    (validate_user_input (fun _ => false) "测试").valid = true ∧
    process [] (fun _ => false) (fun _ => ExtractOutcome.jsonError) "测试"
      none max_follow_ups none "now" = create_max_follow_ups_response [] :=
  ⟨by decide,
    c7_max_follow_ups_bound [] (fun _ => false) (fun _ => ExtractOutcome.jsonError)
      "测试" none none "now" (by decide)⟩

/-- Counterexample to C7 as stated: the guardrail pre-check runs before the
follow-up bound, so an empty input at `follow_up_count = max_follow_ups`
yields the guardrail error response, not the terminal restart response. -/
theorem c7_counterexample_guardrail_first :
    (process [] (fun _ => false) (fun _ => ExtractOutcome.jsonError) ""
      none max_follow_ups none "now").error_message = some "请输入您的问题" ∧
    (process [] (fun _ => false) (fun _ => ExtractOutcome.jsonError) ""
      none max_follow_ups none "now").error = none ∧
    process [] (fun _ => false) (fun _ => ExtractOutcome.jsonError) ""
      none max_follow_ups none "now" ≠ create_max_follow_ups_response [] := by
  decide

end Orchestrator

namespace Master

/-! ## `MasterAgent` (`agents/master_agent.py`), as a pure function over an
environment of collaborator outcomes, returning the response together with
the trace of pipeline stages actually invoked. -/

/-- The pipeline stages of `MasterAgent.run`. -/
inductive Stage where
  | orchestratorStage
  | divinationStage
  | ragStage
  | profileStage
  | explainerStage
  | saveStage
  deriving Repr, DecidableEq

/-- Outcome of `self.executor.submit(adapter.run, ...) .result(timeout)`:
a payload, a `FuturesTimeoutError`, or any other exception. -/
inductive RunOutcome (α : Type) where
  | ok (payload : α)
  | timeout
  | exn (msg : String)
  deriving Repr, DecidableEq

/-- Environment of `_call_divination_tool`: whether routing found an
adapter (after the default fallback), the `validate_input` outcome, and the
bounded `run` outcome. -/
structure DivinationEnv (α : Type) where
  adapter_available : Bool
  validation_error : Option String
  run_outcome : RunOutcome α
  deriving Repr, DecidableEq

/-- The dict `_call_divination_tool` returns. -/
structure ToolResult (α : Type) where
  success : Bool
  result : Option α
  error : Option String
  deriving Repr, DecidableEq

/-- Embeds `MasterAgent._call_divination_tool`: timeouts and exceptions are caught
and collapsed into `success = False` with an error message. -/
def call_divination_tool {α : Type} (env : DivinationEnv α) : ToolResult α :=
  if env.adapter_available = false then
    { success := false, result := none, error := some "算法不可用" }
  else
    match env.validation_error with
    | some ve =>
      { success := false, result := none, error := some ("输入参数错误：" ++ ve) }
    | none =>
      match env.run_outcome with
      | .ok r => { success := true, result := some r, error := none }
      | .timeout => { success := false, result := none, error := some "算法执行超时" }
      | .exn m => { success := false, result := none, error := some m }

/-- Environment of one `MasterAgent.run` call: the orchestrator response
and the outcomes of the divination, RAG, profile and explanation
collaborators.  The `asyncio.gather(..., return_exceptions=True)` handling
collapses failed enrichment calls to `None`, hence plain `Option`s. -/
structure MasterEnv (α β γ : Type) where
  orch : Orchestrator.ProcessResponse
  divination : DivinationEnv α
  rag_chunks : Option (List β)
  user_profile : Option γ
  explanation : String
  deriving Repr, DecidableEq

/-- The response dict of `MasterAgent.run` (the keys the claims read). -/
structure RunResponse (α : Type) where
  reply : String
  status : String
  missing_slots : Option (List String)
  divination_result : Option α
  error : Option String
  deriving Repr, DecidableEq

/-- Embeds `MasterAgent.run`: stage sequencing with per-stage short-circuits; the
second component is the trace of stages invoked, in order.  (The
installation-wide `except Exception` envelope cannot fire in this total
model and is not represented.) -/
def run {α β γ : Type} (env : MasterEnv α β γ) : RunResponse α × List Stage :=
  let o := env.orch
  if o.clarification_needed.getD false then
    ({ reply := o.clarification_message.getD "请提供更多信息"
       status := "clarification_needed"
       missing_slots := some (o.missing_slots.getD [])
       divination_result := none
       error := none }, [Stage.orchestratorStage])
  else if o.ready_to_execute = false then
    ({ reply :=
        match o.error_message with
        | some m => m
        | none => o.clarification_message.getD "无法理解您的问题"
       status := "error"
       missing_slots := none
       divination_result := none
       error := none }, [Stage.orchestratorStage])
  else if o.intent = "divination" then
    let dr := call_divination_tool env.divination
    if dr.success = false then
      ({ reply := "抱歉，" ++ (dr.error.getD "占卜失败") ++ "。请稍后重试。"
         status := "tool_error"
         missing_slots := none
         divination_result := none
         error := none },
       [Stage.orchestratorStage, Stage.divinationStage])
    else
      ({ reply := env.explanation
         status := "success"
         missing_slots := none
         divination_result := dr.result
         error := none },
       [Stage.orchestratorStage, Stage.divinationStage, Stage.ragStage,
        Stage.profileStage, Stage.explainerStage, Stage.saveStage])
  else
    ({ reply := "暂不支持 " ++ o.intent ++ " 意图"
       status := "unsupported_intent"
       missing_slots := none
       divination_result := none
       error := none }, [Stage.orchestratorStage])

/-- C9: when the conversation turn reached ready-to-execute and the
computation stage times out or the adapter raises, `run` returns status
`tool_error` with no structured divination result, and none of the
downstream stages (enrichment, explanation, persistence) is invoked. -/
theorem c9_tool_error_short_circuit {α β γ : Type} (env : MasterEnv α β γ)
    (hclar : env.orch.clarification_needed.getD false = false)
    (hready : env.orch.ready_to_execute = true)
    (hintent : env.orch.intent = "divination")
    (havail : env.divination.adapter_available = true)
    (hval : env.divination.validation_error = none)
    (hfail : env.divination.run_outcome = RunOutcome.timeout ∨
      ∃ m, env.divination.run_outcome = RunOutcome.exn m) :
    (run env).1.status = "tool_error" ∧
    (run env).1.divination_result = none ∧
    (run env).2 = [Stage.orchestratorStage, Stage.divinationStage] ∧
    Stage.ragStage ∉ (run env).2 ∧
    Stage.profileStage ∉ (run env).2 ∧
    Stage.explainerStage ∉ (run env).2 ∧
    Stage.saveStage ∉ (run env).2 := by
  have hfailure : (call_divination_tool env.divination).success = false ∧
      (call_divination_tool env.divination).result = none := by
    rcases hfail with h | ⟨m, h⟩ <;>
      simp [call_divination_tool, havail, hval, h]
  have hrun : run env =
      ({ reply := "抱歉，" ++
          ((call_divination_tool env.divination).error.getD "占卜失败") ++ "。请稍后重试。"
         status := "tool_error"
         missing_slots := none
         divination_result := none
         error := none },
       [Stage.orchestratorStage, Stage.divinationStage]) := by
    simp [run, hclar, hready, hintent, hfailure.1]
  rw [hrun]
  refine ⟨rfl, rfl, rfl, ?_, ?_, ?_, ?_⟩ <;> simp

/-- A concrete environment for the C9 witness: a ready conversation turn
whose computation stage times out. -/
def c9_env : MasterEnv Unit Unit Unit :=
  { orch :=
    { intent := "divination"
      ready_to_execute := true
      slots := some Orchestrator.emptySlots
      missing_slots := some []
      clarification_needed := some false
      clarification_message := some ""
      follow_up_count := some 0
      algorithm_hint := some "xlr-liuren"
      validation_errors := none
      error_message := none
      error := none }
    divination :=
      { adapter_available := true, validation_error := none,
        run_outcome := RunOutcome.timeout }
    rag_chunks := none
    user_profile := none
    explanation := "" }

/-- Witness for C9 at a timed-out computation stage. -/
theorem c9_tool_error_short_circuit_witness :
    (c9_env.orch.clarification_needed.getD false = false ∧
      c9_env.orch.ready_to_execute = true ∧
      c9_env.orch.intent = "divination" ∧
      c9_env.divination.adapter_available = true ∧
      c9_env.divination.validation_error = none ∧
      c9_env.divination.run_outcome = RunOutcome.timeout) ∧
    ((run c9_env).1.status = "tool_error" ∧
      (run c9_env).1.divination_result = none ∧
      (run c9_env).2 = [Stage.orchestratorStage, Stage.divinationStage] ∧
      Stage.ragStage ∉ (run c9_env).2 ∧
      Stage.profileStage ∉ (run c9_env).2 ∧
      Stage.explainerStage ∉ (run c9_env).2 ∧
      Stage.saveStage ∉ (run c9_env).2) :=
  ⟨⟨rfl, rfl, rfl, rfl, rfl, rfl⟩,
    c9_tool_error_short_circuit c9_env rfl rfl rfl rfl rfl (Or.inl rfl)⟩

end Master
